import Mathlib

/-!
C-Dogs SDL graphics device (`src/cdogs/grafx.c`).

A shallow embedding of the display-mode catalog and of the surface lifecycle
of `grafx.c`, followed by the theorems that settle the specification's claims
about them.

Conventions of the embedding:

* C `int` values are `Int`.  Signed overflow is undefined behaviour in C, so
  the embedding describes the executions in which no `int` computation
  overflows.
* C `/` and `%` on `int` truncate towards zero: `Int.tdiv` and `Int.tmod`.
* Arithmetic in `size_t` is unsigned and wraps, and the conversion of a
  `size_t` value to `int` keeps the low 32 bits (`int` has 32 bits): neither
  is undefined behaviour, so where it occurs (`GraphicsGetMemSize`) the
  reduction modulo `2^32` is written out (`sizeToInt`).
* A `CArray` of `GraphicsMode` is a `List GraphicsMode`; its `size` is the
  length of the list.
* A pointer to a resource owned by SDL (window, renderer, texture, pixel
  format, icon surface) is a `Handle`; `none` is `NULL`.
* A heap buffer is the `Option` of its size in bytes; `none` is `NULL`.
-/

namespace Grafx

/-! ## Data model -/

/-- The `GraphicsMode` struct of `grafx.c`, lines 70-75. -/
structure GraphicsMode where
  Width : Int
  Height : Int
  ScaleFactor : Int
  deriving DecidableEq, Repr

/-- The `Vec2i` struct, a pair of `int`. -/
structure Vec2i where
  x : Int
  y : Int
  deriving DecidableEq, Repr

/-- The `Vec2iNew` constructor of `vector.h`. -/
def Vec2iNew (x y : Int) : Vec2i := ⟨x, y⟩

/-- The `Vec2iEqual` comparison of `vector.h`: both coordinates agree. -/
def Vec2iEqual (a b : Vec2i) : Bool := decide (a.x = b.x) && decide (a.y = b.y)

/-- The `GraphicsConfig` struct of `grafx.h`, with the fields `grafx.c` uses. -/
structure GraphicsConfig where
  Res : Vec2i
  Fullscreen : Bool
  ScaleFactor : Int
  IsEditor : Bool
  needRestart : Bool
  deriving DecidableEq, Repr

/-- The clipping rectangle of the device (`device->clipping`). -/
structure BlitClipping where
  left : Int
  top : Int
  right : Int
  bottom : Int
  deriving DecidableEq, Repr

/-- A pointer to an SDL resource; `none` is `NULL`. -/
abbrev Handle := Option Nat

/-- The `GraphicsDevice` struct of `grafx.h`, with the fields `grafx.c` uses.
`validModes` is the mode catalog, `buf` and `bkg` are the two pixel buffers
(the size in bytes of the allocation, or `none` for `NULL`). -/
structure GraphicsDevice where
  IsInitialized : Bool
  IsWindowInitialized : Bool
  icon : Handle
  screen : Handle
  renderer : Handle
  window : Handle
  Format : Handle
  Amask : Int
  Ashift : Int
  cachedConfig : GraphicsConfig
  validModes : List GraphicsMode
  modeIndex : Int
  clipping : BlitClipping
  buf : Option Int
  bkg : Option Int
  deriving DecidableEq, Repr

/-- The part of the global `Config` (`gConfig`) that `grafx.c` reads and
writes: the values stored under `Graphics.ResolutionWidth`,
`Graphics.ResolutionHeight`, `Graphics.Fullscreen` and
`Graphics.ScaleFactor`. -/
structure Config where
  ResolutionWidth : Int
  ResolutionHeight : Int
  Fullscreen : Bool
  ScaleFactor : Int
  deriving DecidableEq, Repr

/-! ## `CArray` operations used by `grafx.c` -/

/-- Modelled from the spec: `CArrayGet` of `c_array.c`, which is not among the
sources; the catalog is "an ordered sequence" and `CArrayGet` reads the
element at an index.  An index outside `[0, size)` has no element. -/
def CArrayGet (a : List GraphicsMode) (index : Int) : Option GraphicsMode :=
  if index < 0 then none else a.get? index.toNat

/-- Modelled from the spec: `CArrayInsert` of `c_array.c`, which is not among
the sources; it "inserts" the element at the "insertion point" `index`,
moving the elements from `index` on one place up. -/
def CArrayInsert (a : List GraphicsMode) (index : Nat) (x : GraphicsMode) :
    List GraphicsMode :=
  a.take index ++ x :: a.drop index

/-! ## Mode catalog: `FindValidMode` and `AddGraphicsMode` -/

/-- The loop of `FindValidMode` (lines 112-120), entered at index `i` with
`modes` the entries from index `i` on; falls through to `return -1`. -/
def FindValidModeLoop (w h scale : Int) : List GraphicsMode → Int → Int
  | [], _ => -1
  | mode :: rest, i =>
    if mode.Width = w ∧ mode.Height = h ∧ mode.ScaleFactor = scale then i
    else FindValidModeLoop w h scale rest (i + 1)

/-- The function `FindValidMode` of `grafx.c`, lines 109-122. -/
def FindValidMode (device : GraphicsDevice) (w h scale : Int) : Int :=
  FindValidModeLoop w h scale device.validModes 0

/-- The scan loop of `AddGraphicsMode` (lines 135-145), entered at index `i`
with `modes` the entries from index `i` on; the result is the value of `i`
when the loop is left. -/
def AddGraphicsModeLoop (size scale : Int) : List GraphicsMode → Nat → Nat
  | [], i => i
  | mode :: rest, i =>
    let actualResolution := mode.Width * mode.Height
    if actualResolution > size ∨
        (actualResolution = size ∧ mode.ScaleFactor < scale) then i
    else AddGraphicsModeLoop size scale rest (i + 1)

/-- The function `AddGraphicsMode` of `grafx.c`, lines 124-151. -/
def AddGraphicsMode (device : GraphicsDevice) (w h scale : Int) :
    GraphicsDevice :=
  if FindValidMode device w h scale ≠ -1 then device
  else
    let size := w * h * scale * scale
    let i := AddGraphicsModeLoop size scale device.validModes 0
    let mode : GraphicsMode := ⟨w, h, scale⟩
    { device with validModes := CArrayInsert device.validModes i mode }

/-! ## Mode cycling: `Gfx_ModeSet`, `Gfx_ModePrev`, `Gfx_ModeNext` -/

/-- The function `Gfx_ModeSet` of `grafx.c`, lines 80-85: writes the mode into
the three entries of the global configuration. -/
def Gfx_ModeSet (gConfig : Config) (mode : GraphicsMode) : Config :=
  { gConfig with
    ResolutionWidth := mode.Width
    ResolutionHeight := mode.Height
    ScaleFactor := mode.ScaleFactor }

/-- The function `Gfx_ModePrev` of `grafx.c`, lines 87-96, on the pair of the
global device and the global configuration.  The result is `none` when
`CArrayGet` is given an index outside the catalog. -/
def Gfx_ModePrev (device : GraphicsDevice) (gConfig : Config) :
    Option (GraphicsDevice × Config) :=
  let device := { device with modeIndex := device.modeIndex - 1 }
  let device :=
    if device.modeIndex < 0 then
      { device with modeIndex := (device.validModes.length : Int) - 1 }
    else device
  match CArrayGet device.validModes device.modeIndex with
  | none => none
  | some mode => some (device, Gfx_ModeSet gConfig mode)

/-- The function `Gfx_ModeNext` of `grafx.c`, lines 98-107, on the pair of the
global device and the global configuration.  The result is `none` when
`CArrayGet` is given an index outside the catalog. -/
def Gfx_ModeNext (device : GraphicsDevice) (gConfig : Config) :
    Option (GraphicsDevice × Config) :=
  let device := { device with modeIndex := device.modeIndex + 1 }
  let device :=
    if device.modeIndex ≥ (device.validModes.length : Int) then
      { device with modeIndex := 0 }
    else device
  match CArrayGet device.validModes device.modeIndex with
  | none => none
  | some mode => some (device, Gfx_ModeSet gConfig mode)

/-! ## Configuration cache: `GraphicsConfigSet` -/

/-- The function `GraphicsConfigSet` of `grafx.c`, lines 347-364; the `SET`
macro is expanded at its two uses. -/
def GraphicsConfigSet (c : GraphicsConfig) (res : Vec2i) (fullscreen : Bool)
    (scaleFactor : Int) : GraphicsConfig :=
  let c :=
    if !Vec2iEqual res c.Res then { c with Res := res, needRestart := true }
    else c
  let c :=
    if c.Fullscreen != fullscreen then
      { c with Fullscreen := fullscreen, needRestart := true }
    else c
  let c :=
    if c.ScaleFactor != scaleFactor then
      { c with ScaleFactor := scaleFactor, needRestart := true }
    else c
  c

/-- The function `GraphicsConfigSetFromConfig` of `grafx.c`, lines 366-375. -/
def GraphicsConfigSetFromConfig (gc : GraphicsConfig) (c : Config) :
    GraphicsConfig :=
  GraphicsConfigSet gc (Vec2iNew c.ResolutionWidth c.ResolutionHeight)
    c.Fullscreen c.ScaleFactor

/-- The function `GraphicsGetScreenSize` of `grafx.c`, lines 337-340. -/
def GraphicsGetScreenSize (config : GraphicsConfig) : Int :=
  config.Res.x * config.Res.y

/-- The value an `int` takes when a `size_t` result congruent to `n` modulo
`2^32` is converted to it: the representative of `n` modulo `2^32` in
`[-2^31, 2^31)` (two's complement, `int` of 32 bits). -/
def sizeToInt (n : Int) : Int :=
  (n + 2147483648) % 4294967296 - 2147483648

/-- The function `GraphicsGetMemSize` of `grafx.c`, lines 342-345.
`sizeof(Uint32)` is 4 and has type `size_t`, so the `int` screen size is
converted to `size_t`, the product is taken in `size_t`, where it wraps, and
the result is converted to the `int` the function returns.  For a `size_t` of
32 or of 64 bits alike, that is the product reduced modulo `2^32` into the
range of `int`. -/
def GraphicsGetMemSize (config : GraphicsConfig) : Int :=
  sizeToInt (GraphicsGetScreenSize config * 4)

/-! ## Clip rectangle -/

/-- The function `GraphicsSetBlitClip` of `grafx.c`, lines 387-394. -/
def GraphicsSetBlitClip (device : GraphicsDevice) (left top right bottom : Int) :
    GraphicsDevice :=
  { device with clipping := ⟨left, top, right, bottom⟩ }

/-- The function `GraphicsResetBlitClip` of `grafx.c`, lines 396-403. -/
def GraphicsResetBlitClip (device : GraphicsDevice) : GraphicsDevice :=
  GraphicsSetBlitClip device 0 0
    (device.cachedConfig.Res.x - 1) (device.cachedConfig.Res.y - 1)

/-! ## `GraphicsInit` -/

/-- The value `memset(&device->cachedConfig, 0, ...)` leaves in the cache. -/
def zeroGraphicsConfig : GraphicsConfig :=
  { Res := ⟨0, 0⟩, Fullscreen := false, ScaleFactor := 0, IsEditor := false,
    needRestart := false }

/-- The function `GraphicsInit` of `grafx.c`, lines 153-175.  The fields the
function does not assign (`icon`, `Format`, `Amask`, `Ashift`) keep the value
they had. -/
def GraphicsInit (device : GraphicsDevice) (c : Config) : GraphicsDevice :=
  let device := { device with
    IsInitialized := false
    IsWindowInitialized := false
    screen := none
    renderer := none
    window := none
    cachedConfig := zeroGraphicsConfig
    validModes := []
    modeIndex := 0
    clipping := ⟨0, 0, 0, 0⟩ }
  let device := AddGraphicsMode device 320 240 1
  let device := AddGraphicsMode device 400 300 1
  let device := AddGraphicsMode device 640 480 1
  let device := AddGraphicsMode device 320 240 2
  let device := { device with buf := none, bkg := none }
  { device with
    cachedConfig := GraphicsConfigSetFromConfig device.cachedConfig c }

/-! ## The host: SDL and the C library

`GraphicsInitialize` and `AddSupportedGraphicsModes` call into SDL.  What
those calls return is given by a `Host`; the calls made are recorded, in
order, as a list of `Event`.  The `debug`, `sprintf`, `GetDataFilePath` and
`SDL_GetWindowPixelFormat` calls, which only compute arguments or print
diagnostics, are left out. -/

/-- What the host answers to the calls `grafx.c` makes. -/
structure Host where
  /-- The surface returned by `IMG_Load`. -/
  icon : Handle
  /-- The value returned by `SDL_GetNumDisplayModes(0)`. -/
  numDisplayModes : Int
  /-- The answer of `SDL_GetDisplayMode(0, i, &mode)`: `none` when the call
  returns non-zero, else the `w` and `h` written to `mode`. -/
  displayMode : Nat → Option (Int × Int)
  /-- The window stored by `SDL_CreateWindowAndRenderer`. -/
  window : Handle
  /-- The renderer stored by `SDL_CreateWindowAndRenderer`. -/
  renderer : Handle
  /-- The format returned by `SDL_AllocFormat`. -/
  format : Handle
  /-- The value returned by `SDL_SetHint`. -/
  setHint : Bool
  /-- The value returned by `SDL_RenderSetLogicalSize`. -/
  renderSetLogicalSize : Int
  /-- The texture returned by `SDL_CreateTexture`. -/
  texture : Handle

/-- The messages `grafx.c` logs with `LOG`. -/
inductive LogMessage where
  | noValidDisplayModes
  | cannotGetDisplayMode
  | invalidVideoMode (w h : Int)
  | graphicsMode (w h scale : Int)
  | cannotCreateWindowOrRenderer
  | cannotSetRenderQualityHint
  | cannotSetRendererLogicalSize
  | cannotCreateScreenTexture
  deriving DecidableEq, Repr

/-- The log levels `grafx.c` uses. -/
inductive LogLevel where
  | LL_INFO
  | LL_WARN
  | LL_ERROR
  deriving DecidableEq, Repr

/-- The calls `grafx.c` makes to SDL and to the C library. -/
inductive Event where
  | LOG (level : LogLevel) (message : LogMessage)
  | IMG_Load
  | SDL_GetNumDisplayModes
  | SDL_GetDisplayMode (i : Nat)
  | SDL_DestroyTexture (texture : Handle)
  | SDL_DestroyRenderer (renderer : Handle)
  | SDL_FreeFormat (format : Handle)
  | SDL_DestroyWindow (window : Handle)
  | SDL_CreateWindowAndRenderer (w h : Int) (sdlFlags : Nat)
  | SDL_SetWindowTitle (window : Handle) (isEditor : Bool)
  | SDL_SetWindowIcon (window : Handle) (icon : Handle)
  | SDL_AllocFormat
  | SDL_SetHint
  | SDL_RenderSetLogicalSize (renderer : Handle) (w h : Int)
  | SDL_CreateTexture (renderer : Handle) (w h : Int)
  | CFREE (buffer : Option Int)
  | CCALLOC (size : Int)
  deriving DecidableEq, Repr

/-- The flag `SDL_WINDOW_FULLSCREEN` of `SDL_video.h`. -/
def SDL_WINDOW_FULLSCREEN : Nat := 0x00000001

/-- The flag `SDL_WINDOW_RESIZABLE` of `SDL_video.h`. -/
def SDL_WINDOW_RESIZABLE : Nat := 0x00000020

/-! ## `AddSupportedGraphicsModes` -/

/-- The array `validScaleFactors` of `AddSupportedGraphicsModes`, line 195. -/
def validScaleFactors : List Int := [1, 2, 3, 4]

/-- The inner loop of `AddSupportedGraphicsModes` (lines 196-215) for a host
mode of size `modew` by `modeh`, over the scale factors still to visit.  The
loop is written once for any state `σ` and any action `add` taken at line 214,
so that it can be run on the device with `AddGraphicsMode` and on a list that
records the arguments of the calls. -/
def ScaleFactorLoop {σ : Type} (add : σ → Int → Int → Int → σ)
    (modew modeh : Int) : List Int → σ → σ
  | [], device => device
  | scaleFactor :: rest, device =>
    if modew.tmod scaleFactor ≠ 0 ∨ modeh.tmod scaleFactor ≠ 0 then
      ScaleFactorLoop add modew modeh rest device
    else if modew.tmod 4 ≠ 0 then
      ScaleFactorLoop add modew modeh rest device
    else
      let w := modew.tdiv scaleFactor
      let h := modeh.tdiv scaleFactor
      if w < 320 ∨ h < 240 then device
      else ScaleFactorLoop add modew modeh rest (add device w h scaleFactor)

/-- The action that, in place of calling `AddGraphicsMode`, appends the
arguments of the call to the list of the calls made so far. -/
def recordCall (calls : List GraphicsMode) (w h scale : Int) :
    List GraphicsMode :=
  calls ++ [⟨w, h, scale⟩]

/-- The arguments of the calls of `AddGraphicsMode` that the inner loop of
`AddSupportedGraphicsModes` makes for one host mode, in the order of the
calls: the loop run with `recordCall` for the action. -/
def AddGraphicsModeCalls (modew modeh : Int) : List GraphicsMode :=
  ScaleFactorLoop recordCall modew modeh validScaleFactors []

/-- The outer loop of `AddSupportedGraphicsModes` (lines 186-216) over the
display mode indices still to visit, on the device and the calls made so
far. -/
def DisplayModeLoop (host : Host) :
    List Nat → GraphicsDevice × List Event → GraphicsDevice × List Event
  | [], state => state
  | i :: rest, (device, trace) =>
    match host.displayMode i with
    | none =>
      DisplayModeLoop host rest
        (device, trace ++ [Event.SDL_GetDisplayMode i,
          Event.LOG LogLevel.LL_ERROR LogMessage.cannotGetDisplayMode])
    | some (modew, modeh) =>
      DisplayModeLoop host rest
        (ScaleFactorLoop AddGraphicsMode modew modeh validScaleFactors device,
          trace ++ [Event.SDL_GetDisplayMode i])

/-- The function `AddSupportedGraphicsModes` of `grafx.c`, lines 177-217:
the device afterwards and the calls made. -/
def AddSupportedGraphicsModes (host : Host) (device : GraphicsDevice) :
    GraphicsDevice × List Event :=
  let numDisplayModes := host.numDisplayModes
  if numDisplayModes < 1 then
    (device, [Event.SDL_GetNumDisplayModes,
      Event.LOG LogLevel.LL_ERROR LogMessage.noValidDisplayModes])
  else
    DisplayModeLoop host (List.range numDisplayModes.toNat)
      (device, [Event.SDL_GetNumDisplayModes])

/-! ## `GraphicsInitialize` -/

/-- Modelled from the spec: the `CFREE` and `CCALLOC` macros of `utils.h`,
which are not among the sources; the rebuild must "allocate both pixel
buffers to exactly width×height×4 bytes", so `CFREE` followed by `CCALLOC`
with `size` leaves a buffer of `size` bytes. -/
def ReallocBuffer (_old : Option Int) (size : Int) : Option Int := some size

/-- Lines 281-285 of `GraphicsInitialize`: the render quality hint is set,
and a warning is logged when that fails. -/
def SetRenderQualityHint (host : Host) : List Event :=
  if !host.setHint then
    [Event.SDL_SetHint,
      Event.LOG LogLevel.LL_WARN LogMessage.cannotSetRenderQualityHint]
  else [Event.SDL_SetHint]

/-- Lines 240-244 of `GraphicsInitialize`: the window flags. -/
def GraphicsInitializeFlags (g : GraphicsDevice) : Nat :=
  let sdlFlags := SDL_WINDOW_RESIZABLE
  if g.cachedConfig.Fullscreen then sdlFlags ||| SDL_WINDOW_FULLSCREEN
  else sdlFlags

/-- Lines 260-321 of `GraphicsInitialize`: the surface is destroyed and
rebuilt for the size `w` by `h` with the window flags `sdlFlags`. -/
def GraphicsInitializeRebuild (host : Host) (g : GraphicsDevice) (w h : Int)
    (sdlFlags : Nat) : GraphicsDevice × List Event :=
  let trace := [
    Event.LOG LogLevel.LL_INFO
      (LogMessage.graphicsMode w h g.cachedConfig.ScaleFactor),
    Event.SDL_DestroyTexture g.screen,
    Event.SDL_DestroyRenderer g.renderer,
    Event.SDL_FreeFormat g.Format,
    Event.SDL_DestroyWindow g.window,
    Event.SDL_CreateWindowAndRenderer w h sdlFlags]
  let g := { g with window := host.window, renderer := host.renderer }
  if g.window = none ∨ g.renderer = none then
    (g, trace ++
      [Event.LOG LogLevel.LL_ERROR LogMessage.cannotCreateWindowOrRenderer])
  else
    let trace := trace ++ [
      Event.SDL_SetWindowTitle g.window g.cachedConfig.IsEditor,
      Event.SDL_SetWindowIcon g.window g.icon,
      Event.SDL_AllocFormat]
    let g := { g with Format := host.format }
    let trace := trace ++ SetRenderQualityHint host
    let trace := trace ++ [Event.SDL_RenderSetLogicalSize g.renderer w h]
    if host.renderSetLogicalSize ≠ 0 then
      (g, trace ++
        [Event.LOG LogLevel.LL_ERROR LogMessage.cannotSetRendererLogicalSize])
    else
      let trace := trace ++ [Event.SDL_CreateTexture g.renderer w h]
      let g := { g with screen := host.texture }
      if g.screen = none then
        (g, trace ++
          [Event.LOG LogLevel.LL_ERROR LogMessage.cannotCreateScreenTexture])
      else
        let g := { g with Amask := 0xFF000000, Ashift := 24 }
        let trace := trace ++
          [Event.CFREE g.buf, Event.CCALLOC (GraphicsGetMemSize g.cachedConfig)]
        let g := { g with
          buf := ReallocBuffer g.buf (GraphicsGetMemSize g.cachedConfig) }
        let trace := trace ++
          [Event.CFREE g.bkg, Event.CCALLOC (GraphicsGetMemSize g.cachedConfig)]
        let g := { g with
          bkg := ReallocBuffer g.bkg (GraphicsGetMemSize g.cachedConfig) }
        let g := GraphicsSetBlitClip g 0 0
          (g.cachedConfig.Res.x - 1) (g.cachedConfig.Res.y - 1)
        let g := { g with IsInitialized := true }
        let g := { g with
          cachedConfig := { g.cachedConfig with Res := ⟨w, g.cachedConfig.Res.y⟩ } }
        let g := { g with
          cachedConfig := { g.cachedConfig with Res := ⟨g.cachedConfig.Res.x, h⟩ } }
        let g := { g with
          cachedConfig := { g.cachedConfig with needRestart := false } }
        (g, trace)

/-- Lines 229-236 of `GraphicsInitialize`: on the first call the icon is
loaded and the catalog is populated from the host. -/
def GraphicsInitializeWindow (host : Host) (g : GraphicsDevice) :
    GraphicsDevice × List Event :=
  if !g.IsWindowInitialized then
    let g := { g with icon := host.icon }
    let added := AddSupportedGraphicsModes host g
    ({ added.1 with IsWindowInitialized := true }, Event.IMG_Load :: added.2)
  else (g, [])

/-- The function `GraphicsInitialize` of `grafx.c`, lines 222-321: the device
afterwards and the calls made, in order. -/
def GraphicsInitialize (host : Host) (g : GraphicsDevice) (force : Bool) :
    GraphicsDevice × List Event :=
  if g.IsInitialized && !g.cachedConfig.needRestart then (g, [])
  else
    let windowed := GraphicsInitializeWindow host g
    let g := windowed.1
    let trace := windowed.2
    let g := { g with IsInitialized := false }
    let sdlFlags := GraphicsInitializeFlags g
    let w := g.cachedConfig.Res.x
    let h := g.cachedConfig.Res.y
    if !force && !g.cachedConfig.IsEditor then
      let g := { g with
        modeIndex := FindValidMode g w h g.cachedConfig.ScaleFactor }
      if g.modeIndex = -1 then
        ({ g with modeIndex := 0 },
          trace ++
            [Event.LOG LogLevel.LL_ERROR (LogMessage.invalidVideoMode w h)])
      else
        let rebuilt := GraphicsInitializeRebuild host g w h sdlFlags
        (rebuilt.1, trace ++ rebuilt.2)
    else
      let rebuilt := GraphicsInitializeRebuild host g w h sdlFlags
      (rebuilt.1, trace ++ rebuilt.2)

/-! ## Notions used to state the properties -/

/-- A sequence of `AddGraphicsMode` calls, one for each triple of `calls`, in
order, starting from `device`. -/
def AddGraphicsModes (device : GraphicsDevice) (calls : List GraphicsMode) :
    GraphicsDevice :=
  calls.foldl (fun d m => AddGraphicsMode d m.Width m.Height m.ScaleFactor)
    device

/-- Entry `a` may stand before entry `b` in a catalog sorted ascending by
`Width * Height` with ties in descending `ScaleFactor` order. -/
def AreaOrdered (a b : GraphicsMode) : Prop :=
  a.Width * a.Height < b.Width * b.Height ∨
    (a.Width * a.Height = b.Width * b.Height ∧ b.ScaleFactor ≤ a.ScaleFactor)

instance (a b : GraphicsMode) : Decidable (AreaOrdered a b) := by
  unfold AreaOrdered; infer_instance

/-- The catalog is sorted ascending by `Width * Height`, and entries with
equal `Width * Height` are in descending `ScaleFactor` order. -/
def SortedByArea (modes : List GraphicsMode) : Prop :=
  modes.Pairwise AreaOrdered

instance (modes : List GraphicsMode) : Decidable (SortedByArea modes) := by
  unfold SortedByArea; infer_instance

/-- The actual (physical) resolution of a mode: the number of pixels of the
window, `Width * Height * ScaleFactor * ScaleFactor`. -/
def actualResolution (m : GraphicsMode) : Int :=
  m.Width * m.Height * m.ScaleFactor * m.ScaleFactor

/-- Entry `a` may stand before entry `b` in a catalog sorted ascending by
actual resolution with ties in descending `ScaleFactor` order. -/
def ActualResolutionOrdered (a b : GraphicsMode) : Prop :=
  actualResolution a < actualResolution b ∨
    (actualResolution a = actualResolution b ∧ b.ScaleFactor ≤ a.ScaleFactor)

instance (a b : GraphicsMode) : Decidable (ActualResolutionOrdered a b) := by
  unfold ActualResolutionOrdered; infer_instance

/-- The catalog is sorted ascending by actual resolution, and entries with
equal actual resolution are in descending `ScaleFactor` order. -/
def SortedByActualResolution (modes : List GraphicsMode) : Prop :=
  modes.Pairwise ActualResolutionOrdered

instance (modes : List GraphicsMode) :
    Decidable (SortedByActualResolution modes) := by
  unfold SortedByActualResolution; infer_instance

/-- The per-scale filter of the specification: the scale factor `s` is kept
for a host mode of size `W` by `H` when `W mod s = 0`, `H mod s = 0`,
`W mod 4 = 0`, `W/s >= 320` and `H/s >= 240`. -/
def keptScaleFactor (W H s : Int) : Bool :=
  decide (W % s = 0 ∧ H % s = 0 ∧ W % 4 = 0 ∧ W / s ≥ 320 ∧ H / s ≥ 240)

/-- The triples `(W/s, H/s, s)` for the scale factors `s` of `{1,2,3,4}` that
the per-scale filter keeps, in increasing `s`. -/
def keptLogicalModes (W H : Int) : List GraphicsMode :=
  (validScaleFactors.filter (keptScaleFactor W H)).map
    (fun s => ⟨W / s, H / s, s⟩)

/-- A device with an empty catalog and nothing allocated, as a concrete
input. -/
def blankDevice : GraphicsDevice :=
  { IsInitialized := false, IsWindowInitialized := false, icon := none,
    screen := none, renderer := none, window := none, Format := none,
    Amask := 0, Ashift := 0, cachedConfig := zeroGraphicsConfig,
    validModes := [], modeIndex := 0, clipping := ⟨0, 0, 0, 0⟩,
    buf := none, bkg := none }

/-- A configuration asking for 640x480 windowed at scale 1, as a concrete
input. -/
def sampleConfig : Config :=
  { ResolutionWidth := 640, ResolutionHeight := 480, Fullscreen := false,
    ScaleFactor := 1 }

/-- A configuration asking for 800x600 windowed at scale 1, a mode that is
neither a default mode nor a mode of `sampleHost`, as a concrete input. -/
def unlistedConfig : Config :=
  { ResolutionWidth := 800, ResolutionHeight := 600, Fullscreen := false,
    ScaleFactor := 1 }

/-- A host with the single display mode 1280x960 on which every call
succeeds, as a concrete input. -/
def sampleHost : Host :=
  { icon := some 1, numDisplayModes := 1,
    displayMode := fun i => if i = 0 then some (1280, 960) else none,
    window := some 2, renderer := some 3, format := some 4, setHint := true,
    renderSetLogicalSize := 0, texture := some 5 }

/-- The device after `GraphicsInit` with `modeIndex` at the last of the four
entries, as a concrete input. -/
def lastModeDevice : GraphicsDevice :=
  { GraphicsInit blankDevice sampleConfig with modeIndex := 3 }

/-- The device after `GraphicsInit` and a `GraphicsInitialize` on which every
call of the host succeeded, as a concrete input. -/
def readyDevice : GraphicsDevice :=
  (GraphicsInitialize sampleHost (GraphicsInit blankDevice sampleConfig) false).1

/-- The four modes `GraphicsInit` seeds the catalog with, in the order of the
calls at lines 168-171. -/
def defaultModes : List GraphicsMode :=
  [⟨320, 240, 1⟩, ⟨400, 300, 1⟩, ⟨640, 480, 1⟩, ⟨320, 240, 2⟩]

/-- The sizes of the host display modes that `AddSupportedGraphicsModes`
queries with success, in the order of their index. -/
def queriedDisplayModes (host : Host) : List (Int × Int) :=
  (List.range host.numDisplayModes.toNat).filterMap host.displayMode

/-- The `AddGraphicsMode` calls made for one host mode of size `size.1` by
`size.2`, applied to `device`. -/
def AddDisplayMode (device : GraphicsDevice) (size : Int × Int) :
    GraphicsDevice :=
  AddGraphicsModes device (AddGraphicsModeCalls size.1 size.2)

/-- The calls that destroy, create or replace a part of the surface: window,
renderer, pixel format, texture and the two pixel buffers. -/
def isSurfaceCall : Event → Bool
  | Event.SDL_DestroyTexture _ => true
  | Event.SDL_DestroyRenderer _ => true
  | Event.SDL_FreeFormat _ => true
  | Event.SDL_DestroyWindow _ => true
  | Event.SDL_CreateWindowAndRenderer _ _ _ => true
  | Event.SDL_CreateTexture _ _ _ => true
  | Event.CFREE _ => true
  | Event.CCALLOC _ => true
  | _ => false

/-- The device at line 238 of `GraphicsInitialize`, when the early return is
not taken: after the first-call population and `IsInitialized = false`. -/
def windowedDevice (host : Host) (g : GraphicsDevice) : GraphicsDevice :=
  { (GraphicsInitializeWindow host g).1 with IsInitialized := false }

/-- The triple `FindValidMode` is asked for at line 251: the cached
resolution and scale factor. -/
def configuredMode (g : GraphicsDevice) : GraphicsMode :=
  ⟨g.cachedConfig.Res.x, g.cachedConfig.Res.y, g.cachedConfig.ScaleFactor⟩

/-- A host that reports no display mode, as a concrete input. -/
def noDisplayHost : Host :=
  { sampleHost with numDisplayModes := 0 }

/-- A host with two display modes, the query of the first of which fails and
the second of which is 1280x960, as a concrete input. -/
def flakyHost : Host :=
  { sampleHost with
    numDisplayModes := 2
    displayMode := fun i => if i = 1 then some (1280, 960) else none }

/-- A host on which `SDL_CreateWindowAndRenderer` yields no window, as a
concrete input. -/
def failingHost : Host :=
  { sampleHost with window := none }

/-! ## Lemmas on the catalog operations -/

theorem matches_iff_eq (w h scale : Int) (mode : GraphicsMode) :
    (mode.Width = w ∧ mode.Height = h ∧ mode.ScaleFactor = scale) ↔ mode = ⟨w, h, scale⟩ := by
  cases mode; simp

theorem FindValidModeLoop_spec (w h scale : Int) (modes : List GraphicsMode) :
    ∀ k : Int, 0 ≤ k →
      (FindValidModeLoop w h scale modes k = -1 ∧ (⟨w, h, scale⟩ : GraphicsMode) ∉ modes) ∨
      (∃ i : Nat, FindValidModeLoop w h scale modes k = k + i ∧ i < modes.length ∧
        modes[i]? = some ⟨w, h, scale⟩ ∧
        ∀ j : Nat, j < i → modes[j]? ≠ some ⟨w, h, scale⟩) := by
  induction modes with
  | nil => intro k _; left; simp [FindValidModeLoop]
  | cons mode rest ih =>
    intro k hk
    by_cases hm : mode.Width = w ∧ mode.Height = h ∧ mode.ScaleFactor = scale
    · right
      refine ⟨0, ?_, by simp, ?_, by simp⟩
      · simp [FindValidModeLoop, hm]
      · simp [(matches_iff_eq w h scale mode).mp hm]
    · have hne : mode ≠ ⟨w, h, scale⟩ := fun e => hm ((matches_iff_eq w h scale mode).mpr e)
      rcases ih (k + 1) (by omega) with ⟨h1, h2⟩ | ⟨i, h1, h2, h3, h4⟩
      · left
        refine ⟨by simp only [FindValidModeLoop, if_neg hm]; exact h1, ?_⟩
        simp only [List.mem_cons, not_or]
        exact ⟨fun e => hne e.symm, h2⟩
      · right
        refine ⟨i + 1, ?_, by simp; omega, by simpa using h3, ?_⟩
        · simp only [FindValidModeLoop, if_neg hm, h1]; push_cast; ring
        · intro j hj
          cases j with
          | zero => simpa using hne
          | succ j => simpa using h4 j (by omega)

theorem CArrayInsert_mem (modes : List GraphicsMode) (i : Nat) (x a : GraphicsMode) :
    a ∈ CArrayInsert modes i x ↔ a = x ∨ a ∈ modes := by
  unfold CArrayInsert
  rw [List.mem_append, List.mem_cons]
  constructor
  · rintro (h | h | h)
    · exact Or.inr (List.mem_of_mem_take h)
    · exact Or.inl h
    · exact Or.inr (List.mem_of_mem_drop h)
  · rintro (h | h)
    · exact Or.inr (Or.inl h)
    · rw [← List.take_append_drop i modes, List.mem_append] at h
      rcases h with h | h
      · exact Or.inl h
      · exact Or.inr (Or.inr h)

theorem CArrayInsert_perm (modes : List GraphicsMode) (i : Nat) (x : GraphicsMode) :
    (CArrayInsert modes i x).Perm (x :: modes) := by
  unfold CArrayInsert
  have h := @List.perm_middle _ x (modes.take i) (modes.drop i)
  rwa [List.take_append_drop] at h

theorem CArrayInsert_length (modes : List GraphicsMode) (i : Nat) (x : GraphicsMode) :
    (CArrayInsert modes i x).length = modes.length + 1 := by
  simpa using (CArrayInsert_perm modes i x).length_eq

theorem CArrayInsert_cons_succ (mode : GraphicsMode) (rest : List GraphicsMode) (i : Nat)
    (x : GraphicsMode) :
    CArrayInsert (mode :: rest) (i + 1) x = mode :: CArrayInsert rest i x := by
  simp [CArrayInsert]

theorem AddGraphicsModeLoop_shift (size scale : Int) (modes : List GraphicsMode) :
    ∀ i : Nat, AddGraphicsModeLoop size scale modes i =
      i + AddGraphicsModeLoop size scale modes 0 := by
  induction modes with
  | nil => intro i; simp [AddGraphicsModeLoop]
  | cons mode rest ih =>
    intro i
    by_cases hb : mode.Width * mode.Height > size ∨
        (mode.Width * mode.Height = size ∧ mode.ScaleFactor < scale)
    · simp [AddGraphicsModeLoop, hb]
    · simp only [AddGraphicsModeLoop, if_neg hb]
      rw [ih (i + 1), ih (0 + 1)]; omega

theorem AddGraphicsModeLoop_le (size scale : Int) (modes : List GraphicsMode) :
    AddGraphicsModeLoop size scale modes 0 ≤ modes.length := by
  induction modes with
  | nil => simp [AddGraphicsModeLoop]
  | cons mode rest ih =>
    by_cases hb : mode.Width * mode.Height > size ∨
        (mode.Width * mode.Height = size ∧ mode.ScaleFactor < scale)
    · simp [AddGraphicsModeLoop, hb]
    · simp only [AddGraphicsModeLoop, if_neg hb]
      rw [AddGraphicsModeLoop_shift]; simp; omega

/-- The insertion of `AddGraphicsMode` unfolded along the catalog. -/
theorem insert_cons (size scale : Int) (mode : GraphicsMode) (rest : List GraphicsMode)
    (x : GraphicsMode) :
    CArrayInsert (mode :: rest) (AddGraphicsModeLoop size scale (mode :: rest) 0) x =
      if mode.Width * mode.Height > size ∨
          (mode.Width * mode.Height = size ∧ mode.ScaleFactor < scale) then
        x :: mode :: rest
      else mode :: CArrayInsert rest (AddGraphicsModeLoop size scale rest 0) x := by
  by_cases hb : mode.Width * mode.Height > size ∨
      (mode.Width * mode.Height = size ∧ mode.ScaleFactor < scale)
  · simp [AddGraphicsModeLoop, hb, CArrayInsert]
  · simp only [AddGraphicsModeLoop, if_neg hb]
    rw [AddGraphicsModeLoop_shift, Nat.add_comm, CArrayInsert_cons_succ]

theorem AreaOrdered_trans_head {a b c : GraphicsMode} (hab : AreaOrdered a b)
    (hbc : AreaOrdered b c) : AreaOrdered a c := by
  unfold AreaOrdered at *
  omega

theorem insert_sorted (x : GraphicsMode) (modes : List GraphicsMode)
    (hs : SortedByArea modes) :
    SortedByArea (CArrayInsert modes
      (AddGraphicsModeLoop (x.Width * x.Height) x.ScaleFactor modes 0) x) := by
  induction modes with
  | nil => simp [CArrayInsert, AddGraphicsModeLoop, SortedByArea]
  | cons mode rest ih =>
    rw [insert_cons]
    unfold SortedByArea at hs ih ⊢
    rw [List.pairwise_cons] at hs
    split
    · rename_i hb
      rw [List.pairwise_cons]
      refine ⟨?_, List.pairwise_cons.mpr hs⟩
      have hxm : AreaOrdered x mode := by unfold AreaOrdered; omega
      intro a ha
      rcases List.mem_cons.mp ha with rfl | ha
      · exact hxm
      · exact AreaOrdered_trans_head hxm (hs.1 a ha)
    · rename_i hb
      rw [List.pairwise_cons]
      refine ⟨?_, ih hs.2⟩
      intro a ha
      rcases (CArrayInsert_mem _ _ _ _).mp ha with rfl | ha
      · unfold AreaOrdered; omega
      · exact hs.1 a ha

theorem FindValidMode_eq_neg_one_iff (device : GraphicsDevice) (w h scale : Int) :
    FindValidMode device w h scale = -1 ↔
      (⟨w, h, scale⟩ : GraphicsMode) ∉ device.validModes := by
  unfold FindValidMode
  rcases FindValidModeLoop_spec w h scale device.validModes 0 (le_refl 0) with
    ⟨h1, h2⟩ | ⟨i, h1, _, h3, _⟩
  · exact ⟨fun _ => h2, fun _ => h1⟩
  · constructor
    · intro h; rw [h1] at h; omega
    · intro h; exact absurd (List.getElem?_mem h3) h

theorem AddGraphicsMode_validModes (device : GraphicsDevice) (w h scale : Int) :
    (AddGraphicsMode device w h scale).validModes =
      if (⟨w, h, scale⟩ : GraphicsMode) ∈ device.validModes then device.validModes
      else CArrayInsert device.validModes
        (AddGraphicsModeLoop (w * h * scale * scale) scale device.validModes 0)
        ⟨w, h, scale⟩ := by
  unfold AddGraphicsMode
  by_cases hm : (⟨w, h, scale⟩ : GraphicsMode) ∈ device.validModes
  · have : FindValidMode device w h scale ≠ -1 := fun e =>
      (FindValidMode_eq_neg_one_iff device w h scale).mp e hm
    simp [this, hm]
  · have : FindValidMode device w h scale = -1 :=
      (FindValidMode_eq_neg_one_iff device w h scale).mpr hm
    simp [this, hm]

theorem AddGraphicsMode_nodup (device : GraphicsDevice) (w h scale : Int)
    (hn : device.validModes.Nodup) :
    (AddGraphicsMode device w h scale).validModes.Nodup := by
  rw [AddGraphicsMode_validModes]
  split
  · exact hn
  · rename_i hm
    exact (CArrayInsert_perm _ _ _).nodup_iff.mpr (List.nodup_cons.mpr ⟨hm, hn⟩)

theorem AddGraphicsModes_nodup (calls : List GraphicsMode) :
    ∀ device : GraphicsDevice, device.validModes.Nodup →
      (AddGraphicsModes device calls).validModes.Nodup := by
  induction calls with
  | nil => intro device hn; exact hn
  | cons m rest ih =>
    intro device hn
    exact ih _ (AddGraphicsMode_nodup device _ _ _ hn)

theorem AddGraphicsMode_sortedByArea (device : GraphicsDevice) (w h : Int)
    (hs : SortedByArea device.validModes) :
    SortedByArea (AddGraphicsMode device w h 1).validModes := by
  rw [AddGraphicsMode_validModes]
  split
  · exact hs
  · have := insert_sorted ⟨w, h, 1⟩ device.validModes hs
    simpa using this

theorem AddGraphicsModes_sortedByArea (calls : List GraphicsMode) :
    ∀ device : GraphicsDevice, SortedByArea device.validModes →
      (∀ m ∈ calls, m.ScaleFactor = 1) →
      SortedByArea (AddGraphicsModes device calls).validModes := by
  induction calls with
  | nil => intro device hs _; exact hs
  | cons m rest ih =>
    intro device hs h1
    have hm : m.ScaleFactor = 1 := h1 m (List.mem_cons_self _ _)
    have := AddGraphicsMode_sortedByArea device m.Width m.Height hs
    rw [← hm] at this
    exact ih _ this (fun a ha => h1 a (List.mem_cons_of_mem _ ha))

theorem GraphicsInit_validModes (device : GraphicsDevice) (c : Config) :
    (GraphicsInit device c).validModes =
      [⟨320, 240, 1⟩, ⟨400, 300, 1⟩, ⟨320, 240, 2⟩, ⟨640, 480, 1⟩] := by
  rfl


theorem AddGraphicsMode_mem (device : GraphicsDevice) (w h scale : Int)
    (a : GraphicsMode) :
    a ∈ (AddGraphicsMode device w h scale).validModes ↔
      a = ⟨w, h, scale⟩ ∨ a ∈ device.validModes := by
  rw [AddGraphicsMode_validModes]
  split
  · rename_i hm
    constructor
    · exact fun ha => Or.inr ha
    · rintro (rfl | ha)
      · exact hm
      · exact ha
  · exact CArrayInsert_mem _ _ _ _

theorem AddGraphicsModes_mem (calls : List GraphicsMode) :
    ∀ (device : GraphicsDevice) (a : GraphicsMode),
      a ∈ (AddGraphicsModes device calls).validModes ↔
        a ∈ calls ∨ a ∈ device.validModes := by
  induction calls with
  | nil => intro device a; simp [AddGraphicsModes]
  | cons m rest ih =>
    intro device a
    have h := ih (AddGraphicsMode device m.Width m.Height m.ScaleFactor) a
    simp only [AddGraphicsModes, List.foldl_cons] at h ⊢
    rw [h, AddGraphicsMode_mem, List.mem_cons]
    constructor
    · rintro (h1 | h1 | h1)
      · exact Or.inl (Or.inr h1)
      · exact Or.inl (Or.inl h1)
      · exact Or.inr h1
    · rintro ((h1 | h1) | h1)
      · exact Or.inr (Or.inl h1)
      · exact Or.inl h1
      · exact Or.inr (Or.inr h1)

/-! ## C1: the order of the catalog -/

/-- C1, counterexample.  The four `AddGraphicsMode` calls of `GraphicsInit`,
made on an empty catalog, leave (320,240,2) with `Width * Height` = 76800
behind (400,300,1) with `Width * Height` = 120000: the catalog is not sorted
ascending by `Width * Height`, and neither is the catalog of `GraphicsInit`. -/
theorem GraphicsInit_not_sortedByArea :
    (AddGraphicsModes blankDevice
        [⟨320, 240, 1⟩, ⟨400, 300, 1⟩, ⟨640, 480, 1⟩, ⟨320, 240, 2⟩]).validModes =
      [⟨320, 240, 1⟩, ⟨400, 300, 1⟩, ⟨320, 240, 2⟩, ⟨640, 480, 1⟩] ∧
    ¬ SortedByArea (AddGraphicsModes blankDevice
        [⟨320, 240, 1⟩, ⟨400, 300, 1⟩, ⟨640, 480, 1⟩, ⟨320, 240, 2⟩]).validModes ∧
    ¬ SortedByArea (GraphicsInit blankDevice sampleConfig).validModes := by
  decide

/-- C1, amended.  For every sequence of `AddGraphicsMode` calls with
`ScaleFactor` 1 starting from an empty catalog, the resulting catalog is
sorted ascending by `Width * Height` (which for these entries is also the
actual resolution), entries with equal `Width * Height` in descending
`ScaleFactor` order.  The catalog built by `GraphicsInit`, which holds a mode
of scale 2, is sorted ascending by actual resolution
`Width * Height * ScaleFactor * ScaleFactor`, entries with equal actual
resolution in descending `ScaleFactor` order. -/
theorem AddGraphicsModes_scale_one_sorted (device : GraphicsDevice)
    (calls : List GraphicsMode) (hempty : device.validModes = [])
    (hscale : ∀ m ∈ calls, m.ScaleFactor = 1) :
    SortedByArea (AddGraphicsModes device calls).validModes ∧
    SortedByActualResolution (AddGraphicsModes device calls).validModes ∧
    ∀ (d : GraphicsDevice) (c : Config),
      SortedByActualResolution (GraphicsInit d c).validModes := by
  have hs : SortedByArea (AddGraphicsModes device calls).validModes :=
    AddGraphicsModes_sortedByArea calls device
      (by rw [hempty]; exact List.Pairwise.nil) hscale
  have hone : ∀ a ∈ (AddGraphicsModes device calls).validModes,
      a.ScaleFactor = 1 := by
    intro a ha
    rcases (AddGraphicsModes_mem calls device a).mp ha with h | h
    · exact hscale a h
    · rw [hempty] at h; exact absurd h (List.not_mem_nil a)
  refine ⟨hs, ?_, ?_⟩
  · refine List.Pairwise.imp_of_mem ?_ hs
    intro a b ha hb hab
    have h1 := hone a ha
    have h2 := hone b hb
    unfold AreaOrdered at hab
    unfold ActualResolutionOrdered actualResolution
    rw [h1, h2] at hab ⊢
    simpa using hab
  · intro d c
    rw [GraphicsInit_validModes]
    decide

/-- C1, amended, at a concrete input: three scale-1 modes added to the empty
catalog in an order that is not the sorted one. -/
theorem AddGraphicsModes_scale_one_sorted_witness :
    (AddGraphicsModes blankDevice
        [⟨640, 480, 1⟩, ⟨320, 240, 1⟩, ⟨400, 300, 1⟩]).validModes =
      [⟨320, 240, 1⟩, ⟨400, 300, 1⟩, ⟨640, 480, 1⟩] ∧
    SortedByArea (AddGraphicsModes blankDevice
        [⟨640, 480, 1⟩, ⟨320, 240, 1⟩, ⟨400, 300, 1⟩]).validModes :=
  ⟨by decide,
    (AddGraphicsModes_scale_one_sorted blankDevice
      [⟨640, 480, 1⟩, ⟨320, 240, 1⟩, ⟨400, 300, 1⟩] rfl (by decide)).1⟩

/-! ## C2: no duplicate triple -/

/-- C2.  `AddGraphicsMode` preserves "no two entries of the catalog are the
same (Width, Height, ScaleFactor) triple": if the catalog of `device` has no
duplicate then neither has the catalog after one call, nor after any sequence
of calls; and every sequence of calls starting from an empty catalog yields a
catalog without duplicate. -/
theorem AddGraphicsMode_no_duplicate (device : GraphicsDevice)
    (calls : List GraphicsMode) (w h scale : Int)
    (hn : device.validModes.Nodup) :
    (AddGraphicsMode device w h scale).validModes.Nodup ∧
    (AddGraphicsModes device calls).validModes.Nodup ∧
    (AddGraphicsModes { device with validModes := [] } calls).validModes.Nodup :=
  ⟨AddGraphicsMode_nodup device w h scale hn,
    AddGraphicsModes_nodup calls device hn,
    AddGraphicsModes_nodup calls _ List.nodup_nil⟩

/-- C2 at a concrete input: calls that repeat a triple, from the empty
catalog. -/
theorem AddGraphicsMode_no_duplicate_witness :
    (AddGraphicsModes blankDevice
        [⟨320, 240, 2⟩, ⟨320, 240, 1⟩, ⟨320, 240, 2⟩]).validModes =
      [⟨320, 240, 2⟩, ⟨320, 240, 1⟩] ∧
    (AddGraphicsModes blankDevice
        [⟨320, 240, 2⟩, ⟨320, 240, 1⟩, ⟨320, 240, 2⟩]).validModes.Nodup :=
  ⟨by decide,
    (AddGraphicsMode_no_duplicate blankDevice
      [⟨320, 240, 2⟩, ⟨320, 240, 1⟩, ⟨320, 240, 2⟩] 0 0 0 (by decide)).2.1⟩

/-! ## C3: adding a mode that is there changes nothing -/

/-- C3.  `AddGraphicsMode(w, h, scale)` on a catalog in which the triple
occurs leaves the device, hence the catalog, unchanged; adding a triple twice
is the same as adding it once; adding (320,240,1) twice to an empty catalog
gives the catalog of the single entry (320,240,1). -/
theorem AddGraphicsMode_existing (device : GraphicsDevice) (w h scale : Int) :
    ((⟨w, h, scale⟩ : GraphicsMode) ∈ device.validModes →
      AddGraphicsMode device w h scale = device) ∧
    AddGraphicsMode (AddGraphicsMode device w h scale) w h scale =
      AddGraphicsMode device w h scale ∧
    (AddGraphicsMode (AddGraphicsMode { device with validModes := [] } 320 240 1)
      320 240 1).validModes = [⟨320, 240, 1⟩] := by
  have hex : ∀ d : GraphicsDevice, (⟨w, h, scale⟩ : GraphicsMode) ∈ d.validModes →
      AddGraphicsMode d w h scale = d := by
    intro d hm
    have hf : FindValidMode d w h scale ≠ -1 := fun e =>
      (FindValidMode_eq_neg_one_iff d w h scale).mp e hm
    simp [AddGraphicsMode, hf]
  refine ⟨hex device, hex _ ?_, rfl⟩
  exact (AddGraphicsMode_mem device w h scale _).mpr (Or.inl rfl)

/-- C3 at a concrete input: (400,300,1) added to the catalog of
`GraphicsInit`, in which it occurs. -/
theorem AddGraphicsMode_existing_witness :
    (⟨400, 300, 1⟩ : GraphicsMode) ∈
      (GraphicsInit blankDevice sampleConfig).validModes ∧
    AddGraphicsMode (GraphicsInit blankDevice sampleConfig) 400 300 1 =
      GraphicsInit blankDevice sampleConfig :=
  ⟨by decide,
    (AddGraphicsMode_existing (GraphicsInit blankDevice sampleConfig)
      400 300 1).1 (by decide)⟩

/-! ## C4: `FindValidMode` -/

/-- C4.  `FindValidMode` returns -1 if and only if no entry of the catalog
equals (w, h, scale) on all three fields; otherwise it returns the smallest
index `i` with `0 <= i < size` whose entry equals (w, h, scale). -/
theorem FindValidMode_spec (device : GraphicsDevice) (w h scale : Int) :
    (FindValidMode device w h scale = -1 ↔
      ∀ m ∈ device.validModes,
        ¬ (m.Width = w ∧ m.Height = h ∧ m.ScaleFactor = scale)) ∧
    (FindValidMode device w h scale ≠ -1 →
      ∃ i : Nat, FindValidMode device w h scale = (i : Int) ∧
        i < device.validModes.length ∧
        (∃ m, device.validModes[i]? = some m ∧
          m.Width = w ∧ m.Height = h ∧ m.ScaleFactor = scale) ∧
        ∀ (j : Nat) (m : GraphicsMode), j < i →
          device.validModes[j]? = some m →
          ¬ (m.Width = w ∧ m.Height = h ∧ m.ScaleFactor = scale)) := by
  constructor
  · rw [FindValidMode_eq_neg_one_iff]
    constructor
    · intro hn m hm hmatch
      rw [matches_iff_eq] at hmatch
      exact hn (hmatch ▸ hm)
    · intro hall hm
      exact hall _ hm ⟨rfl, rfl, rfl⟩
  · intro hne
    rcases FindValidModeLoop_spec w h scale device.validModes 0 (le_refl 0) with
      ⟨h1, _⟩ | ⟨i, h1, h2, h3, h4⟩
    · exact absurd h1 hne
    · refine ⟨i, ?_, h2, ⟨_, h3, rfl, rfl, rfl⟩, ?_⟩
      · unfold FindValidMode; rw [h1]; simp
      · intro j m hj hjm hmatch
        rw [matches_iff_eq] at hmatch
        exact h4 j hj (hmatch ▸ hjm)

/-- C4 at a concrete input: (320,240,2) is found at index 2 of the catalog of
`GraphicsInit`, and (800,600,1) is not found. -/
theorem FindValidMode_spec_witness :
    FindValidMode (GraphicsInit blankDevice sampleConfig) 320 240 2 = 2 ∧
    FindValidMode (GraphicsInit blankDevice sampleConfig) 800 600 1 = -1 ∧
    ∃ i : Nat,
      FindValidMode (GraphicsInit blankDevice sampleConfig) 320 240 2 = (i : Int) ∧
      i < (GraphicsInit blankDevice sampleConfig).validModes.length ∧
      (∃ m, (GraphicsInit blankDevice sampleConfig).validModes[i]? = some m ∧
        m.Width = 320 ∧ m.Height = 240 ∧ m.ScaleFactor = 2) ∧
      ∀ (j : Nat) (m : GraphicsMode), j < i →
        (GraphicsInit blankDevice sampleConfig).validModes[j]? = some m →
        ¬ (m.Width = 320 ∧ m.Height = 240 ∧ m.ScaleFactor = 2) :=
  ⟨by decide, by decide,
    (FindValidMode_spec (GraphicsInit blankDevice sampleConfig) 320 240 2).2
      (by decide)⟩

theorem CArrayGet_some (a : List GraphicsMode) (index : Int) (h0 : 0 ≤ index)
    (h1 : index < a.length) : ∃ m, CArrayGet a index = some m ∧ a[index.toNat]? = some m := by
  have hlt : index.toNat < a.length := by omega
  refine ⟨a[index.toNat], ?_, ?_⟩
  · unfold CArrayGet
    rw [if_neg (by omega), List.get?_eq_getElem?, List.getElem?_eq_getElem hlt]
  · exact List.getElem?_eq_getElem hlt

theorem Gfx_ModeNext_eq (device : GraphicsDevice) (gConfig : Config)
    (h0 : 0 ≤ device.modeIndex) (h1 : device.modeIndex < device.validModes.length) :
    ∃ m, CArrayGet device.validModes
        (if device.modeIndex + 1 ≥ (device.validModes.length : Int) then 0
          else device.modeIndex + 1) = some m ∧
      Gfx_ModeNext device gConfig =
        some ({ device with
          modeIndex := if device.modeIndex + 1 ≥ (device.validModes.length : Int) then 0
            else device.modeIndex + 1 }, Gfx_ModeSet gConfig m) := by
  by_cases hw : device.modeIndex + 1 ≥ (device.validModes.length : Int)
  · obtain ⟨m, hm, _⟩ := CArrayGet_some device.validModes 0 (le_refl 0) (by omega)
    refine ⟨m, by rw [if_pos hw]; exact hm, ?_⟩
    simp [Gfx_ModeNext, hw, hm]
  · obtain ⟨m, hm, _⟩ := CArrayGet_some device.validModes (device.modeIndex + 1)
      (by omega) (by omega)
    refine ⟨m, by rw [if_neg hw]; exact hm, ?_⟩
    simp [Gfx_ModeNext, hw, hm]

theorem Gfx_ModePrev_eq (device : GraphicsDevice) (gConfig : Config)
    (h0 : 0 ≤ device.modeIndex) (h1 : device.modeIndex < device.validModes.length) :
    ∃ m, CArrayGet device.validModes
        (if device.modeIndex - 1 < 0 then (device.validModes.length : Int) - 1
          else device.modeIndex - 1) = some m ∧
      Gfx_ModePrev device gConfig =
        some ({ device with
          modeIndex := if device.modeIndex - 1 < 0 then (device.validModes.length : Int) - 1
            else device.modeIndex - 1 }, Gfx_ModeSet gConfig m) := by
  by_cases hw : device.modeIndex - 1 < 0
  · obtain ⟨m, hm, _⟩ := CArrayGet_some device.validModes
      ((device.validModes.length : Int) - 1) (by omega) (by omega)
    refine ⟨m, by rw [if_pos hw]; exact hm, ?_⟩
    simp [Gfx_ModePrev, hw, hm]
  · obtain ⟨m, hm, _⟩ := CArrayGet_some device.validModes (device.modeIndex - 1)
      (by omega) (by omega)
    refine ⟨m, by rw [if_neg hw]; exact hm, ?_⟩
    simp [Gfx_ModePrev, hw, hm]

/-! ## C5: next then previous -/

/-- C5.  For every catalog of size at least 1 and every `modeIndex` within
`[0, size)`, `Gfx_ModeNext` followed by `Gfx_ModePrev` both return and leave
`modeIndex` as it was (the device is the one before the two calls), and
likewise `Gfx_ModePrev` followed by `Gfx_ModeNext`. -/
theorem Gfx_ModeNext_ModePrev (device : GraphicsDevice) (gConfig : Config)
    (hn : 1 ≤ device.validModes.length) (h0 : 0 ≤ device.modeIndex)
    (h1 : device.modeIndex < device.validModes.length) :
    (∃ d1 c1 d2 c2, Gfx_ModeNext device gConfig = some (d1, c1) ∧
      Gfx_ModePrev d1 c1 = some (d2, c2) ∧ d2.modeIndex = device.modeIndex ∧
      d2 = device) ∧
    (∃ d1 c1 d2 c2, Gfx_ModePrev device gConfig = some (d1, c1) ∧
      Gfx_ModeNext d1 c1 = some (d2, c2) ∧ d2.modeIndex = device.modeIndex ∧
      d2 = device) := by
  constructor
  · obtain ⟨m1, _, e1⟩ := Gfx_ModeNext_eq device gConfig h0 h1
    obtain ⟨m2, _, e2⟩ := Gfx_ModePrev_eq
      { device with
        modeIndex := if device.modeIndex + 1 ≥ (device.validModes.length : Int) then 0
          else device.modeIndex + 1 } (Gfx_ModeSet gConfig m1)
      (by dsimp only; split <;> omega) (by dsimp only; split <;> omega)
    have hidx : (if (if device.modeIndex + 1 ≥ (device.validModes.length : Int) then 0
          else device.modeIndex + 1) - 1 < 0 then (device.validModes.length : Int) - 1
        else (if device.modeIndex + 1 ≥ (device.validModes.length : Int) then 0
          else device.modeIndex + 1) - 1) = device.modeIndex := by
      split_ifs <;> omega
    refine ⟨_, _, _, _, e1, e2, ?_, ?_⟩
    · exact hidx
    · dsimp only; rw [hidx]
  · obtain ⟨m1, _, e1⟩ := Gfx_ModePrev_eq device gConfig h0 h1
    obtain ⟨m2, _, e2⟩ := Gfx_ModeNext_eq
      { device with
        modeIndex := if device.modeIndex - 1 < 0 then (device.validModes.length : Int) - 1
          else device.modeIndex - 1 } (Gfx_ModeSet gConfig m1)
      (by dsimp only; split <;> omega) (by dsimp only; split <;> omega)
    have hidx : (if (if device.modeIndex - 1 < 0 then (device.validModes.length : Int) - 1
          else device.modeIndex - 1) + 1 ≥ (device.validModes.length : Int) then 0
        else (if device.modeIndex - 1 < 0 then (device.validModes.length : Int) - 1
          else device.modeIndex - 1) + 1) = device.modeIndex := by
      split_ifs <;> omega
    refine ⟨_, _, _, _, e1, e2, ?_, ?_⟩
    · exact hidx
    · dsimp only; rw [hidx]

/-- C5 at a concrete input: from the last index of the catalog of
`GraphicsInit`, where `Gfx_ModeNext` wraps to index 0. -/
theorem Gfx_ModeNext_ModePrev_witness :
    1 ≤ lastModeDevice.validModes.length ∧
    (∃ d1 c1 d2 c2, Gfx_ModeNext lastModeDevice sampleConfig = some (d1, c1) ∧
      d1.modeIndex = 0 ∧ Gfx_ModePrev d1 c1 = some (d2, c2) ∧ d2.modeIndex = 3) :=
  ⟨by decide,
    match (Gfx_ModeNext_ModePrev lastModeDevice sampleConfig (by decide) (by decide)
      (by decide)).1 with
    | ⟨d1, c1, d2, c2, h1, h2, h3, _⟩ =>
      ⟨d1, c1, d2, c2, h1,
        by
          have e : Gfx_ModeNext lastModeDevice sampleConfig =
              some ({ lastModeDevice with modeIndex := 0 },
                Gfx_ModeSet sampleConfig ⟨320, 240, 1⟩) := by decide
          rw [e] at h1
          injection h1 with h1
          injection h1 with h1 _
          rw [← h1],
        h2, h3⟩⟩

theorem tmod_eq_zero_iff_emod (a b : Int) : a.tmod b = 0 ↔ a % b = 0 := by
  rw [← Int.dvd_iff_tmod_eq_zero, Int.dvd_iff_emod_eq_zero]

theorem tdiv_eq_ediv_of_emod (a b : Int) (h : a % b = 0) : a.tdiv b = a / b :=
  Int.tdiv_eq_ediv_of_dvd (Int.dvd_of_emod_eq_zero h)

theorem ScaleFactorLoop_append (modew modeh : Int) (ss : List Int) :
    ∀ calls : List GraphicsMode,
      ScaleFactorLoop recordCall modew modeh ss calls =
        calls ++ ScaleFactorLoop recordCall modew modeh ss [] := by
  induction ss with
  | nil => intro calls; simp [ScaleFactorLoop]
  | cons s rest ih =>
    intro calls
    simp only [ScaleFactorLoop]
    split
    · exact ih calls
    · split
      · exact ih calls
      · split
        · simp
        · rw [ih (recordCall calls _ _ _), ih (recordCall [] _ _ _)]
          simp [recordCall]

theorem ScaleFactorLoop_eq_foldl {σ : Type} (add : σ → Int → Int → Int → σ)
    (modew modeh : Int) (ss : List Int) :
    ∀ state : σ,
      ScaleFactorLoop add modew modeh ss state =
        (ScaleFactorLoop recordCall modew modeh ss []).foldl
          (fun d m => add d m.Width m.Height m.ScaleFactor) state := by
  induction ss with
  | nil => intro state; simp [ScaleFactorLoop]
  | cons s rest ih =>
    intro state
    simp only [ScaleFactorLoop]
    split
    · exact ih state
    · split
      · exact ih state
      · split
        · simp
        · rw [ih, ScaleFactorLoop_append modew modeh rest (recordCall [] _ _ _)]
          simp [recordCall]

theorem ediv_lt_of_le_scale (a s t b : Int) (hs : 0 < s) (hst : s ≤ t) (hb : 0 ≤ b)
    (h : a / s < b) : a / t < b := by
  have h1 : a < b * s := Int.lt_mul_of_ediv_lt hs h
  have h2 : b * s ≤ b * t := Int.mul_le_mul_of_nonneg_left hst hb
  exact Int.ediv_lt_of_lt_mul (by omega) (by omega)

theorem ScaleFactorLoop_eq_filter (modew modeh : Int) (ss : List Int)
    (hpos : ∀ s ∈ ss, 0 < s) (hsorted : ss.Pairwise (fun a b => a ≤ b)) :
    ScaleFactorLoop recordCall modew modeh ss [] =
      (ss.filter (keptScaleFactor modew modeh)).map
        (fun s => ⟨modew / s, modeh / s, s⟩) := by
  induction ss with
  | nil => simp [ScaleFactorLoop]
  | cons s rest ih =>
    have hs : 0 < s := hpos s (List.mem_cons_self _ _)
    have hrest := ih (fun a ha => hpos a (List.mem_cons_of_mem _ ha))
      (List.pairwise_cons.mp hsorted).2
    have hle := (List.pairwise_cons.mp hsorted).1
    simp only [ScaleFactorLoop, ne_eq, tmod_eq_zero_iff_emod]
    by_cases hdiv : ¬ modew % s = 0 ∨ ¬ modeh % s = 0
    · rw [if_pos hdiv, hrest, List.filter_cons_of_neg]
      simp only [keptScaleFactor, decide_eq_true_eq]
      tauto
    · rw [if_neg hdiv]
      by_cases h4 : ¬ modew % 4 = 0
      · rw [if_pos h4, hrest, List.filter_cons_of_neg]
        simp only [keptScaleFactor, decide_eq_true_eq]
        tauto
      · rw [if_neg h4]
        have hw : modew % s = 0 := by tauto
        have hh : modeh % s = 0 := by tauto
        rw [tdiv_eq_ediv_of_emod _ _ hw, tdiv_eq_ediv_of_emod _ _ hh]
        by_cases hsmall : modew / s < 320 ∨ modeh / s < 240
        · rw [if_pos hsmall]
          have hnone : ∀ t ∈ s :: rest, keptScaleFactor modew modeh t = false := by
            intro t ht
            have hst : s ≤ t := by
              rcases List.mem_cons.mp ht with rfl | ht
              · exact le_refl _
              · exact hle t ht
            simp only [keptScaleFactor, decide_eq_false_iff_not]
            rintro ⟨_, _, _, h1, h2⟩
            rcases hsmall with h | h
            · have := ediv_lt_of_le_scale modew s t 320 hs hst (by omega) h
              omega
            · have := ediv_lt_of_le_scale modeh s t 240 hs hst (by omega) h
              omega
          rw [List.filter_eq_nil_iff.mpr (fun t ht => by simp [hnone t ht])]
          rfl
        · rw [if_neg hsmall, ScaleFactorLoop_append, hrest, List.filter_cons_of_pos]
          · simp [recordCall]
          · simp only [keptScaleFactor, decide_eq_true_eq]
            refine ⟨hw, hh, by tauto, ?_, ?_⟩ <;> omega

theorem AddGraphicsModeCalls_eq (modew modeh : Int) :
    AddGraphicsModeCalls modew modeh = keptLogicalModes modew modeh :=
  ScaleFactorLoop_eq_filter modew modeh validScaleFactors (by decide) (by decide)

theorem AddSupportedGraphicsModes_single (host : Host) (device : GraphicsDevice)
    (modew modeh : Int) (hnum : host.numDisplayModes = 1)
    (hmode : host.displayMode 0 = some (modew, modeh)) :
    (AddSupportedGraphicsModes host device).1 =
      AddGraphicsModes device (AddGraphicsModeCalls modew modeh) := by
  unfold AddSupportedGraphicsModes
  simp only [hnum]
  rw [if_neg (by decide)]
  have : List.range (1 : Int).toNat = [0] := by decide
  rw [this]
  simp only [DisplayModeLoop, hmode]
  exact ScaleFactorLoop_eq_foldl AddGraphicsMode modew modeh validScaleFactors device

/-! ## C6: the scale factors tried for one host mode -/

/-- C6.  For one host display mode of size `modew` by `modeh`, the inner loop
of `AddSupportedGraphicsModes` passes to `AddGraphicsMode` exactly the triples
`(W/s, H/s, s)`, in increasing `s`, for those `s` of 1, 2, 3, 4 with
`W mod s = 0`, `H mod s = 0`, `W mod 4 = 0`, `W/s >= 320` and `H/s >= 240`
(the `break` skips nothing the per-scale filter keeps); the device after the
loop is the device after those calls, also when the loop is reached through
`AddSupportedGraphicsModes` on a host with that single mode; for 1280x960 the
calls are (1280,960,1), (640,480,2), (320,240,4). -/
theorem AddSupportedGraphicsModes_calls (modew modeh : Int) :
    AddGraphicsModeCalls modew modeh = keptLogicalModes modew modeh ∧
    (∀ device : GraphicsDevice,
      ScaleFactorLoop AddGraphicsMode modew modeh validScaleFactors device =
        AddGraphicsModes device (AddGraphicsModeCalls modew modeh)) ∧
    (∀ (host : Host) (device : GraphicsDevice), host.numDisplayModes = 1 →
      host.displayMode 0 = some (modew, modeh) →
      (AddSupportedGraphicsModes host device).1 =
        AddGraphicsModes device (keptLogicalModes modew modeh)) ∧
    AddGraphicsModeCalls 1280 960 =
      [⟨1280, 960, 1⟩, ⟨640, 480, 2⟩, ⟨320, 240, 4⟩] := by
  refine ⟨AddGraphicsModeCalls_eq modew modeh, ?_, ?_, by decide⟩
  · intro device
    exact ScaleFactorLoop_eq_foldl AddGraphicsMode modew modeh validScaleFactors device
  · intro host device hnum hmode
    rw [← AddGraphicsModeCalls_eq]
    exact AddSupportedGraphicsModes_single host device modew modeh hnum hmode

/-- C6 at a concrete input: the host whose single mode is 1280x960. -/
theorem AddSupportedGraphicsModes_calls_witness :
    sampleHost.numDisplayModes = 1 ∧ sampleHost.displayMode 0 = some (1280, 960) ∧
    keptLogicalModes 1280 960 = [⟨1280, 960, 1⟩, ⟨640, 480, 2⟩, ⟨320, 240, 4⟩] ∧
    (AddSupportedGraphicsModes sampleHost blankDevice).1 =
      AddGraphicsModes blankDevice (keptLogicalModes 1280 960) :=
  ⟨rfl, rfl, by decide,
    (AddSupportedGraphicsModes_calls 1280 960).2.2.1 sampleHost blankDevice rfl rfl⟩

/-! ## C7: the state after `GraphicsInit` -/

/-- C7.  After `GraphicsInit` the catalog has exactly four entries, which are
exactly (320,240,1), (400,300,1), (640,480,1) and (320,240,2) (in the order
(320,240,1), (400,300,1), (320,240,2), (640,480,1)); `modeIndex` is 0,
`IsInitialized` and `IsWindowInitialized` are false and the clip rectangle is
(0,0,0,0). -/
theorem GraphicsInit_state (device : GraphicsDevice) (c : Config) :
    (GraphicsInit device c).validModes.length = 4 ∧
    (∀ m : GraphicsMode, m ∈ (GraphicsInit device c).validModes ↔
      m = ⟨320, 240, 1⟩ ∨ m = ⟨400, 300, 1⟩ ∨ m = ⟨640, 480, 1⟩ ∨ m = ⟨320, 240, 2⟩) ∧
    (GraphicsInit device c).validModes =
      [⟨320, 240, 1⟩, ⟨400, 300, 1⟩, ⟨320, 240, 2⟩, ⟨640, 480, 1⟩] ∧
    (GraphicsInit device c).modeIndex = 0 ∧
    (GraphicsInit device c).IsInitialized = false ∧
    (GraphicsInit device c).IsWindowInitialized = false ∧
    (GraphicsInit device c).clipping = ⟨0, 0, 0, 0⟩ := by
  refine ⟨?_, ?_, GraphicsInit_validModes device c, rfl, rfl, rfl, rfl⟩
  · rw [GraphicsInit_validModes]; rfl
  · intro m
    rw [GraphicsInit_validModes]
    simp only [List.mem_cons, List.mem_singleton, List.not_mem_nil, or_false]
    tauto

/-! ## C8: `GraphicsConfigSet` -/

/-- C8.  After `GraphicsConfigSet`, `Res`, `Fullscreen` and `ScaleFactor` are
the arguments, `IsEditor` is unchanged, and `needRestart` is the old
`needRestart` or-ed with "res differs from the old Res", "fullscreen differs
from the old Fullscreen" and "scaleFactor differs from the old ScaleFactor".
Applying the cached values to a configuration whose `needRestart` is false
leaves the configuration as it is, `needRestart` false. -/
theorem GraphicsConfigSet_spec (c : GraphicsConfig) (res : Vec2i) (fullscreen : Bool)
    (scaleFactor : Int) :
    (GraphicsConfigSet c res fullscreen scaleFactor).Res = res ∧
    (GraphicsConfigSet c res fullscreen scaleFactor).Fullscreen = fullscreen ∧
    (GraphicsConfigSet c res fullscreen scaleFactor).ScaleFactor = scaleFactor ∧
    (GraphicsConfigSet c res fullscreen scaleFactor).IsEditor = c.IsEditor ∧
    (GraphicsConfigSet c res fullscreen scaleFactor).needRestart =
      (c.needRestart || decide (res ≠ c.Res) || decide (fullscreen ≠ c.Fullscreen) ||
        decide (scaleFactor ≠ c.ScaleFactor)) ∧
    (c.needRestart = false →
      GraphicsConfigSet c c.Res c.Fullscreen c.ScaleFactor = c ∧
      (GraphicsConfigSet c c.Res c.Fullscreen c.ScaleFactor).needRestart = false) := by
  rcases c with ⟨⟨cx, cy⟩, cf, cs, ce, cn⟩
  rcases res with ⟨rx, ry⟩
  refine ⟨?_, ?_, ?_, ?_, ?_, ?_⟩
  · by_cases hx : rx = cx <;> by_cases hy : ry = cy <;>
      simp [GraphicsConfigSet, Vec2iEqual, hx, hy] <;> split_ifs <;> simp_all
  · by_cases hf : cf = fullscreen <;>
      simp [GraphicsConfigSet, hf] <;> split_ifs <;> simp_all
  · by_cases hs : cs = scaleFactor <;>
      simp [GraphicsConfigSet, hs] <;> split_ifs <;> simp_all
  · simp only [GraphicsConfigSet]; split_ifs <;> rfl
  · by_cases hx : rx = cx <;> by_cases hy : ry = cy <;>
      by_cases hf : fullscreen = cf <;> by_cases hs : scaleFactor = cs <;>
      simp [GraphicsConfigSet, Vec2iEqual, hx, hy, hf, hs, Ne.symm]
  · intro hn
    simp [GraphicsConfigSet, Vec2iEqual] at hn ⊢
    exact hn

/-- C8 at a concrete input: the values of the cached configuration of
`readyDevice`, whose `needRestart` is false, applied to it. -/
theorem GraphicsConfigSet_spec_witness :
    readyDevice.cachedConfig.needRestart = false ∧
    GraphicsConfigSet readyDevice.cachedConfig ⟨640, 480⟩ false 1 =
      readyDevice.cachedConfig :=
  ⟨by decide,
    ((GraphicsConfigSet_spec readyDevice.cachedConfig ⟨640, 480⟩ false 1).2.2.2.2.2
      (by decide)).1⟩

/-! ## Lemmas on `GraphicsInitialize` -/

theorem frame_trans {a b c : GraphicsDevice}
    (h1 : a = { b with validModes := a.validModes })
    (h2 : b = { c with validModes := b.validModes }) :
    a = { c with validModes := a.validModes } := by
  cases a; cases b; cases c
  simp only [GraphicsDevice.mk.injEq] at h1 h2 ⊢
  simp_all

theorem AddGraphicsMode_frame (device : GraphicsDevice) (w h scale : Int) :
    AddGraphicsMode device w h scale =
      { device with validModes := (AddGraphicsMode device w h scale).validModes } := by
  unfold AddGraphicsMode
  split <;> rfl

theorem ScaleFactorLoop_frame (modew modeh : Int) (ss : List Int) :
    ∀ device : GraphicsDevice,
      ScaleFactorLoop AddGraphicsMode modew modeh ss device =
        { device with
          validModes :=
            (ScaleFactorLoop AddGraphicsMode modew modeh ss device).validModes } := by
  induction ss with
  | nil => intro device; rfl
  | cons s rest ih =>
    intro device
    simp only [ScaleFactorLoop]
    split
    · exact ih device
    · split
      · exact ih device
      · split
        · rfl
        · exact frame_trans (ih _) (AddGraphicsMode_frame device _ _ _)

theorem DisplayModeLoop_frame (host : Host) (indices : List Nat) :
    ∀ (device : GraphicsDevice) (trace : List Event),
      (DisplayModeLoop host indices (device, trace)).1 =
        { device with
          validModes := (DisplayModeLoop host indices (device, trace)).1.validModes } := by
  induction indices with
  | nil => intro device trace; rfl
  | cons i rest ih =>
    intro device trace
    simp only [DisplayModeLoop]
    split
    · exact ih device _
    · exact frame_trans (ih _ _) (ScaleFactorLoop_frame _ _ _ device)

theorem AddSupportedGraphicsModes_frame (host : Host) (device : GraphicsDevice) :
    (AddSupportedGraphicsModes host device).1 =
      { device with
        validModes := (AddSupportedGraphicsModes host device).1.validModes } := by
  unfold AddSupportedGraphicsModes
  dsimp only
  split
  · rfl
  · exact DisplayModeLoop_frame host _ device _

theorem GraphicsInitializeWindow_frame (host : Host) (g : GraphicsDevice) :
    (GraphicsInitializeWindow host g).1 =
      { g with
        icon := (GraphicsInitializeWindow host g).1.icon
        IsWindowInitialized := (GraphicsInitializeWindow host g).1.IsWindowInitialized
        validModes := (GraphicsInitializeWindow host g).1.validModes } := by
  unfold GraphicsInitializeWindow
  dsimp only
  split
  · have h1 := AddSupportedGraphicsModes_frame host { g with icon := host.icon }
    generalize AddSupportedGraphicsModes host { g with icon := host.icon } = r at h1 ⊢
    rw [h1]
  · rfl

theorem GraphicsInitializeRebuild_initialized (host : Host) (g : GraphicsDevice)
    (w h : Int) (sdlFlags : Nat) :
    ((GraphicsInitializeRebuild host g w h sdlFlags).1.IsInitialized = g.IsInitialized ∧
      (GraphicsInitializeRebuild host g w h sdlFlags).1.cachedConfig.needRestart =
        g.cachedConfig.needRestart) ∨
    ((GraphicsInitializeRebuild host g w h sdlFlags).1.IsInitialized = true ∧
      (GraphicsInitializeRebuild host g w h sdlFlags).1.cachedConfig.needRestart = false) := by
  unfold GraphicsInitializeRebuild
  dsimp only
  split_ifs
  all_goals first | exact Or.inl ⟨rfl, rfl⟩ | exact Or.inr ⟨rfl, rfl⟩

theorem GraphicsInitializeRebuild_trace (host : Host) (g : GraphicsDevice)
    (w h : Int) (sdlFlags : Nat) :
    ∃ rest : List Event, (GraphicsInitializeRebuild host g w h sdlFlags).2 =
      [Event.LOG LogLevel.LL_INFO (LogMessage.graphicsMode w h g.cachedConfig.ScaleFactor),
        Event.SDL_DestroyTexture g.screen, Event.SDL_DestroyRenderer g.renderer,
        Event.SDL_FreeFormat g.Format, Event.SDL_DestroyWindow g.window,
        Event.SDL_CreateWindowAndRenderer w h sdlFlags] ++ rest := by
  unfold GraphicsInitializeRebuild
  dsimp only
  split_ifs
  all_goals exact ⟨_, by simp only [List.append_assoc]; rfl⟩

theorem GraphicsInitialize_early_return (host : Host) (g : GraphicsDevice) (force : Bool)
    (hi : g.IsInitialized = true) (hr : g.cachedConfig.needRestart = false) :
    GraphicsInitialize host g force = (g, []) := by
  unfold GraphicsInitialize
  simp [hi, hr]

theorem GraphicsInitializeRebuild_needRestart (host : Host) (g : GraphicsDevice)
    (w h : Int) (sdlFlags : Nat) (hg : g.IsInitialized = false)
    (hi : (GraphicsInitializeRebuild host g w h sdlFlags).1.IsInitialized = true) :
    (GraphicsInitializeRebuild host g w h sdlFlags).1.cachedConfig.needRestart = false := by
  rcases GraphicsInitializeRebuild_initialized host g w h sdlFlags with h | h
  · rw [h.1, hg] at hi; exact absurd hi (by decide)
  · exact h.2

theorem GraphicsInitialize_initialized (host : Host) (g : GraphicsDevice) (force : Bool)
    (hi : (GraphicsInitialize host g force).1.IsInitialized = true) :
    (GraphicsInitialize host g force).1.cachedConfig.needRestart = false := by
  unfold GraphicsInitialize at hi ⊢
  dsimp only at hi ⊢
  split_ifs at hi ⊢ with h1 h2 h3
  · simp at h1; exact h1.2
  · exact GraphicsInitializeRebuild_needRestart _ _ _ _ _ rfl hi
  · exact GraphicsInitializeRebuild_needRestart _ _ _ _ _ rfl hi


theorem GraphicsInitializeRebuild_texture (host : Host) (g : GraphicsDevice)
    (w h : Int) (sdlFlags : Nat) (hw : host.window ≠ none) (hr : host.renderer ≠ none)
    (hl : host.renderSetLogicalSize = 0) :
    Event.SDL_CreateTexture host.renderer w h ∈
      (GraphicsInitializeRebuild host g w h sdlFlags).2 := by
  unfold GraphicsInitializeRebuild
  dsimp only
  rw [if_neg (by simp [hw, hr]), if_neg (by simp [hl])]
  split <;> simp

theorem GraphicsInitializeWindow_fields (host : Host) (g : GraphicsDevice) :
    (GraphicsInitializeWindow host g).1.screen = g.screen ∧
    (GraphicsInitializeWindow host g).1.renderer = g.renderer ∧
    (GraphicsInitializeWindow host g).1.Format = g.Format ∧
    (GraphicsInitializeWindow host g).1.window = g.window ∧
    (GraphicsInitializeWindow host g).1.cachedConfig = g.cachedConfig := by
  have hf := GraphicsInitializeWindow_frame host g
  have h1 := congrArg GraphicsDevice.screen hf
  have h2 := congrArg GraphicsDevice.renderer hf
  have h3 := congrArg GraphicsDevice.Format hf
  have h4 := congrArg GraphicsDevice.window hf
  have h5 := congrArg GraphicsDevice.cachedConfig hf
  exact ⟨h1, h2, h3, h4, h5⟩

theorem GraphicsInitializeRebuild_trace_eq (host : Host) (g : GraphicsDevice)
    (w h : Int) (sdlFlags : Nat) :
    (GraphicsInitializeRebuild host g w h sdlFlags).2 =
      Event.LOG LogLevel.LL_INFO (LogMessage.graphicsMode w h g.cachedConfig.ScaleFactor) ::
        [Event.SDL_DestroyTexture g.screen, Event.SDL_DestroyRenderer g.renderer,
          Event.SDL_FreeFormat g.Format, Event.SDL_DestroyWindow g.window,
          Event.SDL_CreateWindowAndRenderer w h sdlFlags] ++
        (GraphicsInitializeRebuild host g w h sdlFlags).2.drop 6 := by
  obtain ⟨rest, hrest⟩ := GraphicsInitializeRebuild_trace host g w h sdlFlags
  rw [hrest]
  simp

theorem exists_split (a : List Event) (x : Event) (m b : List Event) :
    ∃ before after : List Event, a ++ (x :: m ++ b) = before ++ m ++ after :=
  ⟨a ++ [x], b, by simp⟩

/-! ## C9: the early return of `GraphicsInitialize` -/

/-- C9.  On a device with `IsInitialized` true and `needRestart` false,
`GraphicsInitialize` returns at once for both values of `force`: it makes no
call at all (no destruction or creation of window, renderer or texture) and
leaves the whole device unchanged.  Hence a call that follows a successful
call (one after which `IsInitialized` is true) changes nothing. -/
theorem GraphicsInitialize_skip (host : Host) (g : GraphicsDevice) (force : Bool)
    (hi : g.IsInitialized = true) (hr : g.cachedConfig.needRestart = false) :
    GraphicsInitialize host g force = (g, []) ∧
    ∀ (host0 : Host) (g0 : GraphicsDevice) (force0 : Bool),
      (GraphicsInitialize host0 g0 force0).1.IsInitialized = true →
      GraphicsInitialize host (GraphicsInitialize host0 g0 force0).1 force =
        ((GraphicsInitialize host0 g0 force0).1, []) :=
  ⟨GraphicsInitialize_early_return host g force hi hr,
    fun host0 g0 force0 h0 =>
      GraphicsInitialize_early_return host _ force h0
        (GraphicsInitialize_initialized host0 g0 force0 h0)⟩

/-- C9 at a concrete input: the device after a successful
`GraphicsInitialize`, for both values of `force`. -/
theorem GraphicsInitialize_skip_witness :
    readyDevice.IsInitialized = true ∧ readyDevice.cachedConfig.needRestart = false ∧
    GraphicsInitialize sampleHost readyDevice false = (readyDevice, []) ∧
    GraphicsInitialize sampleHost readyDevice true = (readyDevice, []) :=
  ⟨by decide, by decide,
    (GraphicsInitialize_skip sampleHost readyDevice false (by decide) (by decide)).1,
    (GraphicsInitialize_skip sampleHost readyDevice true (by decide) (by decide)).1⟩

/-! ## C10: the `force` flag -/

/-- C10, counterexample.  On the device after a successful
`GraphicsInitialize` (`IsInitialized` true, `needRestart` false) a call with
`force` true is skipped: the device is unchanged and no call is made, so
nothing is destroyed or recreated. -/
theorem forced_GraphicsInitialize_skipped :
    readyDevice.IsInitialized = true ∧ readyDevice.cachedConfig.needRestart = false ∧
    (GraphicsInitialize sampleHost readyDevice true).1 = readyDevice ∧
    (GraphicsInitialize sampleHost readyDevice true).2 = [] := by
  decide

/-- C10, amended.  `GraphicsInitialize` is a no-op whenever `IsInitialized` is
true and `needRestart` is false, whatever the `force` flag.  When
`IsInitialized` is false or `needRestart` is true, a call with `force` true
proceeds to rebuild the surface: it destroys the texture, the renderer, the
pixel format and the window and calls `SDL_CreateWindowAndRenderer` for the
cached resolution, whether or not that mode is in the catalog, and it calls
`SDL_CreateTexture` when window, renderer and logical size succeed. -/
theorem GraphicsInitialize_force (host : Host) (g : GraphicsDevice) (force : Bool) :
    (g.IsInitialized = true → g.cachedConfig.needRestart = false →
      GraphicsInitialize host g force = (g, [])) ∧
    ((g.IsInitialized = false ∨ g.cachedConfig.needRestart = true) → force = true →
      (∃ before after : List Event,
        (GraphicsInitialize host g force).2 =
          before ++
            [Event.SDL_DestroyTexture g.screen, Event.SDL_DestroyRenderer g.renderer,
              Event.SDL_FreeFormat g.Format, Event.SDL_DestroyWindow g.window,
              Event.SDL_CreateWindowAndRenderer g.cachedConfig.Res.x g.cachedConfig.Res.y
                (GraphicsInitializeFlags g)] ++ after) ∧
      (host.window ≠ none → host.renderer ≠ none → host.renderSetLogicalSize = 0 →
        Event.SDL_CreateTexture host.renderer g.cachedConfig.Res.x g.cachedConfig.Res.y ∈
          (GraphicsInitialize host g force).2)) := by
  refine ⟨GraphicsInitialize_early_return host g force, ?_⟩
  intro hns hforce
  subst hforce
  have hcond : ¬ ((g.IsInitialized && !g.cachedConfig.needRestart) = true) := by
    rcases hns with h | h <;> simp [h]
  obtain ⟨hs, hr, hf, hw, hc⟩ := GraphicsInitializeWindow_fields host g
  unfold GraphicsInitialize
  rw [if_neg hcond]
  dsimp only
  rw [if_neg (by simp)]
  constructor
  · rw [GraphicsInitializeRebuild_trace_eq]
    dsimp only
    simp only [GraphicsInitializeFlags, hs, hr, hf, hw, hc]
    exact exists_split _ _ _ _
  · intro h1 h2 h3
    rw [hc]
    exact List.mem_append_right _ (GraphicsInitializeRebuild_texture host _ _ _ _ h1 h2 h3)

/-- C10, amended, at a concrete input: a forced first call for 800x600, a mode
that is not in the catalog, rebuilds the surface. -/
theorem GraphicsInitialize_force_witness :
    (GraphicsInit blankDevice unlistedConfig).IsInitialized = false ∧
    FindValidMode
      (GraphicsInitializeWindow sampleHost (GraphicsInit blankDevice unlistedConfig)).1
      800 600 1 = -1 ∧
    Event.SDL_CreateTexture (some 3) 800 600 ∈
      (GraphicsInitialize sampleHost (GraphicsInit blankDevice unlistedConfig) true).2 :=
  ⟨by decide, by decide,
    ((GraphicsInitialize_force sampleHost (GraphicsInit blankDevice unlistedConfig)
      true).2 (Or.inl (by decide)) rfl).2 (by decide) (by decide) rfl⟩

theorem CArrayGet_getElem (a : List GraphicsMode) (index : Int) (m : GraphicsMode)
    (h0 : 0 ≤ index) (h : CArrayGet a index = some m) : a[index.toNat]? = some m := by
  unfold CArrayGet at h
  rw [if_neg (by omega), List.get?_eq_getElem?] at h
  exact h

theorem next_index_eq_mod (i n : Int) (h0 : 0 ≤ i) (h1 : i < n) :
    (if i + 1 ≥ n then 0 else i + 1) = (i + 1) % n := by
  split
  · have : i + 1 = n := by omega
    rw [this, Int.emod_self]
  · rw [Int.emod_eq_of_lt (by omega) (by omega)]

theorem prev_index_eq_mod (i n : Int) (h0 : 0 ≤ i) (h1 : i < n) :
    (if i - 1 < 0 then n - 1 else i - 1) = (i + n - 1) % n := by
  split
  · have : i = 0 := by omega
    rw [this, Int.zero_add, Int.emod_eq_of_lt (by omega) (by omega)]
  · have : i + n - 1 = (i - 1) + n := by omega
    rw [this, Int.add_emod_self, Int.emod_eq_of_lt (by omega) (by omega)]

/-! ## C17: the index after `Gfx_ModeNext` and `Gfx_ModePrev` -/

/-- C17.  For a catalog of size `n >= 1` and `modeIndex` `i` in `[0, n)`,
`Gfx_ModeNext` sets `modeIndex` to `(i+1) mod n` and `Gfx_ModePrev` sets it to
`(i+n-1) mod n`; the new index is in `[0, n)`, so the catalog lookup is in
bounds; the `ResolutionWidth`, `ResolutionHeight` and `ScaleFactor` of the
live configuration become the fields of the catalog entry at the new index;
nothing else of the device (catalog, `cachedConfig` with `needRestart`) or of
the configuration changes. -/
theorem Gfx_Mode_index_wraps (device : GraphicsDevice) (gConfig : Config)
    (hn : 1 ≤ device.validModes.length) (h0 : 0 ≤ device.modeIndex)
    (h1 : device.modeIndex < device.validModes.length) :
    (0 ≤ (device.modeIndex + 1) % (device.validModes.length : Int) ∧
      (device.modeIndex + 1) % (device.validModes.length : Int) < device.validModes.length ∧
      ∃ m, device.validModes[((device.modeIndex + 1) %
            (device.validModes.length : Int)).toNat]? = some m ∧
        Gfx_ModeNext device gConfig =
          some ({ device with
              modeIndex := (device.modeIndex + 1) % (device.validModes.length : Int) },
            { gConfig with
              ResolutionWidth := m.Width
              ResolutionHeight := m.Height
              ScaleFactor := m.ScaleFactor })) ∧
    (0 ≤ (device.modeIndex + device.validModes.length - 1) %
        (device.validModes.length : Int) ∧
      (device.modeIndex + device.validModes.length - 1) %
        (device.validModes.length : Int) < device.validModes.length ∧
      ∃ m, device.validModes[((device.modeIndex + device.validModes.length - 1) %
            (device.validModes.length : Int)).toNat]? = some m ∧
        Gfx_ModePrev device gConfig =
          some ({ device with
              modeIndex := (device.modeIndex + device.validModes.length - 1) %
                (device.validModes.length : Int) },
            { gConfig with
              ResolutionWidth := m.Width
              ResolutionHeight := m.Height
              ScaleFactor := m.ScaleFactor })) := by
  have hpos : (0 : Int) < device.validModes.length := by omega
  constructor
  · obtain ⟨m, hm, e⟩ := Gfx_ModeNext_eq device gConfig h0 h1
    rw [next_index_eq_mod _ _ h0 h1] at hm e
    have hlo := Int.emod_nonneg (device.modeIndex + 1) (ne_of_gt hpos)
    exact ⟨hlo, Int.emod_lt_of_pos _ hpos, m, CArrayGet_getElem _ _ _ hlo hm, e⟩
  · obtain ⟨m, hm, e⟩ := Gfx_ModePrev_eq device gConfig h0 h1
    rw [prev_index_eq_mod _ _ h0 h1] at hm e
    have hlo := Int.emod_nonneg (device.modeIndex + device.validModes.length - 1)
      (ne_of_gt hpos)
    exact ⟨hlo, Int.emod_lt_of_pos _ hpos, m, CArrayGet_getElem _ _ _ hlo hm, e⟩

/-- C17 at a concrete input: from the last index of the catalog of
`GraphicsInit`, `Gfx_ModeNext` wraps to index 0 and applies (320,240,1). -/
theorem Gfx_Mode_index_wraps_witness :
    (lastModeDevice.modeIndex + 1) % (lastModeDevice.validModes.length : Int) = 0 ∧
    ∃ m, lastModeDevice.validModes[((lastModeDevice.modeIndex + 1) %
          (lastModeDevice.validModes.length : Int)).toNat]? = some m ∧
      Gfx_ModeNext lastModeDevice sampleConfig =
        some ({ lastModeDevice with
            modeIndex := (lastModeDevice.modeIndex + 1) %
              (lastModeDevice.validModes.length : Int) },
          { sampleConfig with
            ResolutionWidth := m.Width
            ResolutionHeight := m.Height
            ScaleFactor := m.ScaleFactor }) :=
  ⟨by decide,
    (Gfx_Mode_index_wraps lastModeDevice sampleConfig (by decide) (by decide)
      (by decide)).1.2.2⟩

/-! ## C16: the clip rectangle -/

/-- C16.  `GraphicsSetBlitClip` stores exactly the four values it is given in
the clip rectangle, whatever they are, and changes no other field of the
device; `GraphicsResetBlitClip` sets the clip rectangle to
`(0, 0, cachedConfig.Res.x - 1, cachedConfig.Res.y - 1)` and changes no other
field. -/
theorem GraphicsSetBlitClip_spec (device : GraphicsDevice) (left top right bottom : Int) :
    (GraphicsSetBlitClip device left top right bottom).clipping.left = left ∧
    (GraphicsSetBlitClip device left top right bottom).clipping.top = top ∧
    (GraphicsSetBlitClip device left top right bottom).clipping.right = right ∧
    (GraphicsSetBlitClip device left top right bottom).clipping.bottom = bottom ∧
    { GraphicsSetBlitClip device left top right bottom with
        clipping := device.clipping } = device ∧
    (GraphicsResetBlitClip device).clipping =
      ⟨0, 0, device.cachedConfig.Res.x - 1, device.cachedConfig.Res.y - 1⟩ ∧
    { GraphicsResetBlitClip device with clipping := device.clipping } = device :=
  ⟨rfl, rfl, rfl, rfl, rfl, rfl, rfl⟩

theorem CArrayInsert_zero (modes : List GraphicsMode) (x : GraphicsMode) :
    CArrayInsert modes 0 x = x :: modes := by
  simp [CArrayInsert]

theorem CArrayInsert_getElem (x : GraphicsMode) (modes : List GraphicsMode) :
    ∀ i : Nat, i ≤ modes.length → (CArrayInsert modes i x)[i]? = some x := by
  induction modes with
  | nil => intro i hi; simp at hi; subst hi; simp [CArrayInsert]
  | cons a rest ih =>
    intro i hi
    cases i with
    | zero => simp [CArrayInsert_zero]
    | succ i =>
      rw [CArrayInsert_cons_succ]
      simpa using ih i (by simpa using hi)

theorem CArrayInsert_eraseIdx (x : GraphicsMode) (modes : List GraphicsMode) :
    ∀ i : Nat, i ≤ modes.length → (CArrayInsert modes i x).eraseIdx i = modes := by
  induction modes with
  | nil => intro i hi; simp at hi; subst hi; simp [CArrayInsert]
  | cons a rest ih =>
    intro i hi
    cases i with
    | zero => simp [CArrayInsert_zero]
    | succ i =>
      rw [CArrayInsert_cons_succ, List.eraseIdx_cons_succ, ih i (by simpa using hi)]

theorem CArrayInsert_getElem_unique (x : GraphicsMode) (modes : List GraphicsMode)
    (hx : x ∉ modes) :
    ∀ i j : Nat, i ≤ modes.length → (CArrayInsert modes i x)[j]? = some x → j = i := by
  induction modes with
  | nil =>
    intro i j hi hj
    simp at hi; subst hi
    cases j with
    | zero => rfl
    | succ j => simp [CArrayInsert] at hj
  | cons a rest ih =>
    intro i j hi hj
    have hxa : a ≠ x := fun e => hx (e ▸ List.mem_cons_self _ _)
    have hxr : x ∉ rest := fun h => hx (List.mem_cons_of_mem _ h)
    cases i with
    | zero =>
      rw [CArrayInsert_zero] at hj
      cases j with
      | zero => rfl
      | succ j =>
        rw [List.getElem?_cons_succ] at hj
        exact absurd (List.getElem?_mem hj) hx
    | succ i =>
      rw [CArrayInsert_cons_succ] at hj
      cases j with
      | zero => simp at hj; exact absurd hj hxa
      | succ j =>
        rw [List.getElem?_cons_succ] at hj
        rw [ih hxr i j (by simpa using hi) hj]

/-! ## C19: adding a mode that is not there -/

/-- C19.  When (w, h, scale) does not occur in the catalog, `AddGraphicsMode`
yields a catalog one entry longer that holds (w, h, scale) at exactly one
index `i`; erasing index `i` gives back the original catalog; and
`FindValidMode(w, h, scale)` on the new catalog returns `i`. -/
theorem AddGraphicsMode_new (device : GraphicsDevice) (w h scale : Int)
    (habsent : (⟨w, h, scale⟩ : GraphicsMode) ∉ device.validModes) :
    ∃ i : Nat, i ≤ device.validModes.length ∧
      (AddGraphicsMode device w h scale).validModes.length =
        device.validModes.length + 1 ∧
      (AddGraphicsMode device w h scale).validModes[i]? = some ⟨w, h, scale⟩ ∧
      (∀ j : Nat, (AddGraphicsMode device w h scale).validModes[j]? =
        some ⟨w, h, scale⟩ → j = i) ∧
      (AddGraphicsMode device w h scale).validModes.eraseIdx i = device.validModes ∧
      FindValidMode (AddGraphicsMode device w h scale) w h scale = (i : Int) := by
  have hle := AddGraphicsModeLoop_le (w * h * scale * scale) scale device.validModes
  have hv := AddGraphicsMode_validModes device w h scale
  rw [if_neg habsent] at hv
  refine ⟨AddGraphicsModeLoop (w * h * scale * scale) scale device.validModes 0, hle, ?_⟩
  have hget := CArrayInsert_getElem ⟨w, h, scale⟩ device.validModes _ hle
  have huniq := fun j => CArrayInsert_getElem_unique ⟨w, h, scale⟩ device.validModes
    habsent _ j hle
  rw [hv]
  refine ⟨CArrayInsert_length _ _ _, hget, huniq, CArrayInsert_eraseIdx _ _ _ hle, ?_⟩
  unfold FindValidMode
  rw [hv]
  rcases FindValidModeLoop_spec w h scale
      (CArrayInsert device.validModes
        (AddGraphicsModeLoop (w * h * scale * scale) scale device.validModes 0)
        ⟨w, h, scale⟩) 0 (le_refl 0) with ⟨_, h2⟩ | ⟨k, h1, _, h3, _⟩
  · exact absurd (List.getElem?_mem hget) h2
  · rw [h1, huniq k h3]; simp

/-- C19 at a concrete input: (800,600,1) added to the catalog of
`GraphicsInit`. -/
theorem AddGraphicsMode_new_witness :
    (⟨800, 600, 1⟩ : GraphicsMode) ∉ (GraphicsInit blankDevice sampleConfig).validModes ∧
    ∃ i : Nat, i ≤ (GraphicsInit blankDevice sampleConfig).validModes.length ∧
      (AddGraphicsMode (GraphicsInit blankDevice sampleConfig) 800 600 1).validModes.length =
        (GraphicsInit blankDevice sampleConfig).validModes.length + 1 ∧
      (AddGraphicsMode (GraphicsInit blankDevice sampleConfig) 800 600 1).validModes[i]? =
        some ⟨800, 600, 1⟩ ∧
      (∀ j : Nat, (AddGraphicsMode (GraphicsInit blankDevice sampleConfig) 800 600
        1).validModes[j]? = some ⟨800, 600, 1⟩ → j = i) ∧
      (AddGraphicsMode (GraphicsInit blankDevice sampleConfig) 800 600 1).validModes.eraseIdx
        i = (GraphicsInit blankDevice sampleConfig).validModes ∧
      FindValidMode (AddGraphicsMode (GraphicsInit blankDevice sampleConfig) 800 600 1)
        800 600 1 = (i : Int) :=
  ⟨by decide, AddGraphicsMode_new (GraphicsInit blankDevice sampleConfig) 800 600 1
    (by decide)⟩

/-! ## More lemmas on `GraphicsInitialize` -/

theorem DisplayModeLoop_no_surface_call (host : Host) (indices : List Nat) :
    ∀ (device : GraphicsDevice) (trace : List Event),
      (∀ e ∈ trace, isSurfaceCall e = false) →
      ∀ e ∈ (DisplayModeLoop host indices (device, trace)).2, isSurfaceCall e = false := by
  induction indices with
  | nil => intro device trace ht; exact ht
  | cons i rest ih =>
    intro device trace ht
    simp only [DisplayModeLoop]
    split
    · apply ih
      intro e he
      rcases List.mem_append.mp he with h | h
      · exact ht e h
      · simp only [List.mem_cons, List.mem_singleton, List.not_mem_nil, or_false] at h
        rcases h with rfl | rfl <;> rfl
    · apply ih
      intro e he
      rcases List.mem_append.mp he with h | h
      · exact ht e h
      · simp only [List.mem_singleton] at h
        subst h; rfl

theorem AddSupportedGraphicsModes_no_surface_call (host : Host) (device : GraphicsDevice) :
    ∀ e ∈ (AddSupportedGraphicsModes host device).2, isSurfaceCall e = false := by
  unfold AddSupportedGraphicsModes
  dsimp only
  split
  · intro e he
    simp only [List.mem_cons, List.mem_singleton, List.not_mem_nil, or_false] at he
    rcases he with rfl | rfl <;> rfl
  · apply DisplayModeLoop_no_surface_call
    intro e he
    simp only [List.mem_singleton] at he
    subst he; rfl

theorem GraphicsInitializeWindow_no_surface_call (host : Host) (g : GraphicsDevice) :
    ∀ e ∈ (GraphicsInitializeWindow host g).2, isSurfaceCall e = false := by
  unfold GraphicsInitializeWindow
  dsimp only
  split
  · intro e he
    rcases List.mem_cons.mp he with rfl | h
    · rfl
    · exact AddSupportedGraphicsModes_no_surface_call host _ e h
  · intro e he; exact absurd he (List.not_mem_nil e)

theorem GraphicsInitializeWindow_more_fields (host : Host) (g : GraphicsDevice) :
    (GraphicsInitializeWindow host g).1.buf = g.buf ∧
    (GraphicsInitializeWindow host g).1.bkg = g.bkg ∧
    (GraphicsInitializeWindow host g).1.Amask = g.Amask ∧
    (GraphicsInitializeWindow host g).1.Ashift = g.Ashift ∧
    (GraphicsInitializeWindow host g).1.clipping = g.clipping ∧
    (GraphicsInitializeWindow host g).1.modeIndex = g.modeIndex ∧
    (GraphicsInitializeWindow host g).1.IsInitialized = g.IsInitialized := by
  have hf := GraphicsInitializeWindow_frame host g
  have h1 := congrArg GraphicsDevice.buf hf
  have h2 := congrArg GraphicsDevice.bkg hf
  have h3 := congrArg GraphicsDevice.Amask hf
  have h4 := congrArg GraphicsDevice.Ashift hf
  have h5 := congrArg GraphicsDevice.clipping hf
  have h6 := congrArg GraphicsDevice.modeIndex hf
  have h7 := congrArg GraphicsDevice.IsInitialized hf
  exact ⟨h1, h2, h3, h4, h5, h6, h7⟩

/-- The two ways out of a call that is not skipped. -/
theorem GraphicsInitialize_cases (host : Host) (g : GraphicsDevice) (force : Bool)
    (hns : g.IsInitialized = false ∨ g.cachedConfig.needRestart = true) :
    (force = false ∧ (windowedDevice host g).cachedConfig.IsEditor = false ∧
      configuredMode (windowedDevice host g) ∉ (windowedDevice host g).validModes ∧
      GraphicsInitialize host g force =
        ({ windowedDevice host g with modeIndex := 0 },
          (GraphicsInitializeWindow host g).2 ++
            [Event.LOG LogLevel.LL_ERROR
              (LogMessage.invalidVideoMode (windowedDevice host g).cachedConfig.Res.x
                (windowedDevice host g).cachedConfig.Res.y)])) ∨
    ((force = true ∨ (windowedDevice host g).cachedConfig.IsEditor = true ∨
        configuredMode (windowedDevice host g) ∈ (windowedDevice host g).validModes) ∧
      ∃ index : Int,
        GraphicsInitialize host g force =
          ((GraphicsInitializeRebuild host
              { windowedDevice host g with modeIndex := index }
              (windowedDevice host g).cachedConfig.Res.x
              (windowedDevice host g).cachedConfig.Res.y
              (GraphicsInitializeFlags (windowedDevice host g))).1,
            (GraphicsInitializeWindow host g).2 ++
              (GraphicsInitializeRebuild host
                { windowedDevice host g with modeIndex := index }
                (windowedDevice host g).cachedConfig.Res.x
                (windowedDevice host g).cachedConfig.Res.y
                (GraphicsInitializeFlags (windowedDevice host g))).2)) := by
  have hcond : ¬ ((g.IsInitialized && !g.cachedConfig.needRestart) = true) := by
    rcases hns with h | h <;> simp [h]
  unfold GraphicsInitialize
  rw [if_neg hcond]
  dsimp only
  split_ifs with h1 h2
  · left
    have hfe : force = false ∧
        (GraphicsInitializeWindow host g).1.cachedConfig.IsEditor = false := by
      simpa using h1
    exact ⟨hfe.1, hfe.2, (FindValidMode_eq_neg_one_iff _ _ _ _).mp h2, rfl⟩
  · right
    refine ⟨Or.inr (Or.inr ?_), _, rfl⟩
    by_contra hm
    exact h2 ((FindValidMode_eq_neg_one_iff _ _ _ _).mpr hm)
  · right
    refine ⟨?_, (GraphicsInitializeWindow host g).1.modeIndex, rfl⟩
    have : (windowedDevice host g).cachedConfig.IsEditor =
        (GraphicsInitializeWindow host g).1.cachedConfig.IsEditor := rfl
    rw [this]
    cases force <;>
      cases hE : (GraphicsInitializeWindow host g).1.cachedConfig.IsEditor <;> simp_all

theorem windowedDevice_fields (host : Host) (g : GraphicsDevice) :
    (windowedDevice host g).IsInitialized = false ∧
    (windowedDevice host g).cachedConfig = g.cachedConfig ∧
    (windowedDevice host g).screen = g.screen ∧
    (windowedDevice host g).renderer = g.renderer ∧
    (windowedDevice host g).window = g.window ∧
    (windowedDevice host g).Format = g.Format ∧
    (windowedDevice host g).buf = g.buf ∧
    (windowedDevice host g).bkg = g.bkg ∧
    (windowedDevice host g).validModes = (GraphicsInitializeWindow host g).1.validModes := by
  obtain ⟨h1, h2, h3, h4, h5⟩ := GraphicsInitializeWindow_fields host g
  obtain ⟨h6, h7, _⟩ := GraphicsInitializeWindow_more_fields host g
  exact ⟨rfl, h5, h1, h2, h4, h3, h6, h7, rfl⟩

theorem GraphicsInitializeRebuild_failure (host : Host) (g : GraphicsDevice)
    (w h : Int) (sdlFlags : Nat)
    (hfail : host.window = none ∨ host.renderer = none ∨
      host.renderSetLogicalSize ≠ 0 ∨ host.texture = none) :
    (GraphicsInitializeRebuild host g w h sdlFlags).1.IsInitialized = g.IsInitialized ∧
    (GraphicsInitializeRebuild host g w h sdlFlags).1.cachedConfig = g.cachedConfig := by
  unfold GraphicsInitializeRebuild
  dsimp only
  split_ifs with h1 h2 h3
  · exact ⟨rfl, rfl⟩
  · exact ⟨rfl, rfl⟩
  · exact ⟨rfl, rfl⟩
  · exfalso
    rcases hfail with h | h | h | h
    · exact h1 (Or.inl h)
    · exact h1 (Or.inr h)
    · exact h2 h
    · exact h3 h

theorem configuredMode_windowedDevice (host : Host) (g : GraphicsDevice) :
    configuredMode (windowedDevice host g) = configuredMode g := by
  unfold configuredMode
  rw [(windowedDevice_fields host g).2.1]

theorem GraphicsInitialize_trace_ne_nil (host : Host) (g : GraphicsDevice) (force : Bool)
    (hns : g.IsInitialized = false ∨ g.cachedConfig.needRestart = true) :
    (GraphicsInitialize host g force).2 ≠ [] := by
  rcases GraphicsInitialize_cases host g force hns with ⟨_, _, _, e⟩ | ⟨_, index, e⟩
  · rw [e]; simp
  · rw [e]
    dsimp only
    rw [GraphicsInitializeRebuild_trace_eq]
    simp

/-! ## C11: the configured mode is not in the catalog -/

/-- C11.  When the early return is not taken (`IsInitialized` false or
`needRestart` true), `force` is false, `IsEditor` is false and the triple
(`Res.x`, `Res.y`, `ScaleFactor`) of the cached configuration does not occur
in the catalog as it stands after the first-call population, then after
`GraphicsInitialize` `IsInitialized` is false, `modeIndex` is 0, `needRestart`
is unchanged, the window, renderer, texture and format handles and the two
pixel buffers are the ones from before, and no call that destroys, creates or
replaces one of them has been made. -/
theorem GraphicsInitialize_invalid_mode (host : Host) (g : GraphicsDevice)
    (hns : g.IsInitialized = false ∨ g.cachedConfig.needRestart = true)
    (heditor : g.cachedConfig.IsEditor = false)
    (habsent : configuredMode g ∉ (GraphicsInitializeWindow host g).1.validModes) :
    (GraphicsInitialize host g false).1.IsInitialized = false ∧
    (GraphicsInitialize host g false).1.modeIndex = 0 ∧
    (GraphicsInitialize host g false).1.cachedConfig.needRestart =
      g.cachedConfig.needRestart ∧
    (GraphicsInitialize host g false).1.window = g.window ∧
    (GraphicsInitialize host g false).1.renderer = g.renderer ∧
    (GraphicsInitialize host g false).1.screen = g.screen ∧
    (GraphicsInitialize host g false).1.Format = g.Format ∧
    (GraphicsInitialize host g false).1.buf = g.buf ∧
    (GraphicsInitialize host g false).1.bkg = g.bkg ∧
    ∀ e ∈ (GraphicsInitialize host g false).2, isSurfaceCall e = false := by
  obtain ⟨_, hc, hs, hr, hw, hf, hb, hk, hv⟩ := windowedDevice_fields host g
  rcases GraphicsInitialize_cases host g false hns with ⟨_, _, _, e⟩ | ⟨hpass, _⟩
  · rw [e]
    refine ⟨rfl, rfl, congrArg GraphicsConfig.needRestart hc, hw, hr, hs, hf, hb, hk, ?_⟩
    intro ev hev
    rcases List.mem_append.mp hev with h | h
    · exact GraphicsInitializeWindow_no_surface_call host g ev h
    · simp only [List.mem_singleton] at h
      subst h; rfl
  · exfalso
    rcases hpass with h | h | h
    · exact absurd h (by decide)
    · rw [hc, heditor] at h; exact absurd h (by decide)
    · rw [configuredMode_windowedDevice, hv] at h; exact habsent h

/-- C11 at a concrete input: the first call for 800x600, which is neither a
default mode nor a mode of the host. -/
theorem GraphicsInitialize_invalid_mode_witness :
    configuredMode (GraphicsInit blankDevice unlistedConfig) = ⟨800, 600, 1⟩ ∧
    (GraphicsInitialize sampleHost (GraphicsInit blankDevice unlistedConfig)
      false).1.IsInitialized = false ∧
    (GraphicsInitialize sampleHost (GraphicsInit blankDevice unlistedConfig)
      false).1.modeIndex = 0 :=
  ⟨by decide,
    (GraphicsInitialize_invalid_mode sampleHost (GraphicsInit blankDevice unlistedConfig)
      (Or.inl (by decide)) (by decide) (by decide)).1,
    (GraphicsInitialize_invalid_mode sampleHost (GraphicsInit blankDevice unlistedConfig)
      (Or.inl (by decide)) (by decide) (by decide)).2.1⟩

/-! ## C12: the state after a successful rebuild -/

/-- C13.  `GraphicsConfigSet` never changes `needRestart` from true to false;
and for every `GraphicsInitialize` call, whatever `force` and whatever the
host answers, if `needRestart` is true before the call and false after it,
then `IsInitialized` is true after the call: only a successful rebuild clears
`needRestart`. -/
theorem needRestart_cleared_by_rebuild (c : GraphicsConfig) (res : Vec2i)
    (fullscreen : Bool) (scaleFactor : Int) (host : Host) (g : GraphicsDevice)
    (force : Bool) :
    (c.needRestart = true →
      (GraphicsConfigSet c res fullscreen scaleFactor).needRestart = true) ∧
    (g.cachedConfig.needRestart = true →
      (GraphicsInitialize host g force).1.cachedConfig.needRestart = false →
      (GraphicsInitialize host g force).1.IsInitialized = true) := by
  constructor
  · intro hc
    unfold GraphicsConfigSet
    dsimp only
    split_ifs <;> first | rfl | exact hc
  · intro hbefore hafter
    obtain ⟨_, hc, _⟩ := windowedDevice_fields host g
    rcases GraphicsInitialize_cases host g force (Or.inr hbefore) with
      ⟨_, _, _, e⟩ | ⟨_, index, e⟩
    · rw [e] at hafter
      have : (windowedDevice host g).cachedConfig.needRestart = false := hafter
      rw [hc, hbefore] at this
      exact absurd this (by decide)
    · rw [e] at hafter ⊢
      rcases GraphicsInitializeRebuild_initialized host
        { windowedDevice host g with modeIndex := index }
        (windowedDevice host g).cachedConfig.Res.x
        (windowedDevice host g).cachedConfig.Res.y
        (GraphicsInitializeFlags (windowedDevice host g)) with h | h
      · have h2 := h.2
        dsimp only at h2 hafter
        rw [hafter, hc, hbefore] at h2
        exact absurd h2 (by decide)
      · exact h.1

/-- C13 at a concrete input: after `GraphicsInit` with a 640x480
configuration `needRestart` is true; the successful first call clears it and
leaves `IsInitialized` true. -/
theorem needRestart_cleared_by_rebuild_witness :
    (GraphicsInit blankDevice sampleConfig).cachedConfig.needRestart = true ∧
    (GraphicsInitialize sampleHost (GraphicsInit blankDevice sampleConfig)
      false).1.cachedConfig.needRestart = false ∧
    (GraphicsInitialize sampleHost (GraphicsInit blankDevice sampleConfig)
      false).1.IsInitialized = true :=
  ⟨by decide, by decide,
    (needRestart_cleared_by_rebuild zeroGraphicsConfig ⟨0, 0⟩ false 0 sampleHost
      (GraphicsInit blankDevice sampleConfig) false).2 (by decide) (by decide)⟩

/-! ## C14: a creation that fails -/

/-- C14.  When the early return is not taken and the host fails the creation
of the window or of the renderer, the setting of the logical size or the
creation of the texture, then after `GraphicsInitialize` `IsInitialized` is
false and `needRestart` has the value from before the call; so the next call,
whatever the host and `force`, does not take the early return: it makes calls
again. -/
theorem GraphicsInitialize_failure (host : Host) (g : GraphicsDevice) (force : Bool)
    (hns : g.IsInitialized = false ∨ g.cachedConfig.needRestart = true)
    (hfail : host.window = none ∨ host.renderer = none ∨
      host.renderSetLogicalSize ≠ 0 ∨ host.texture = none) :
    (GraphicsInitialize host g force).1.IsInitialized = false ∧
    (GraphicsInitialize host g force).1.cachedConfig.needRestart =
      g.cachedConfig.needRestart ∧
    ∀ (host2 : Host) (force2 : Bool),
      (GraphicsInitialize host2 (GraphicsInitialize host g force).1 force2).2 ≠ [] := by
  obtain ⟨_, hc, _⟩ := windowedDevice_fields host g
  have key : (GraphicsInitialize host g force).1.IsInitialized = false ∧
      (GraphicsInitialize host g force).1.cachedConfig.needRestart =
        g.cachedConfig.needRestart := by
    rcases GraphicsInitialize_cases host g force hns with ⟨_, _, _, e⟩ | ⟨_, index, e⟩
    · rw [e]
      exact ⟨rfl, congrArg GraphicsConfig.needRestart hc⟩
    · obtain ⟨h1, h2⟩ := GraphicsInitializeRebuild_failure host
        { windowedDevice host g with modeIndex := index }
        (windowedDevice host g).cachedConfig.Res.x
        (windowedDevice host g).cachedConfig.Res.y
        (GraphicsInitializeFlags (windowedDevice host g)) hfail
      rw [e]
      dsimp only at h1 h2 ⊢
      rw [h1, h2]
      exact ⟨rfl, congrArg GraphicsConfig.needRestart hc⟩
  exact ⟨key.1, key.2, fun host2 force2 =>
    GraphicsInitialize_trace_ne_nil host2 _ force2 (Or.inl key.1)⟩

/-- C14 at a concrete input: the first call on a host that yields no
window. -/
theorem GraphicsInitialize_failure_witness :
    failingHost.window = none ∧
    (GraphicsInitialize failingHost (GraphicsInit blankDevice sampleConfig)
      false).1.IsInitialized = false ∧
    (GraphicsInitialize failingHost (GraphicsInit blankDevice sampleConfig)
      false).1.cachedConfig.needRestart = true :=
  ⟨rfl,
    (GraphicsInitialize_failure failingHost (GraphicsInit blankDevice sampleConfig) false
      (Or.inl (by decide)) (Or.inl rfl)).1,
    (GraphicsInitialize_failure failingHost (GraphicsInit blankDevice sampleConfig) false
      (Or.inl (by decide)) (Or.inl rfl)).2.1⟩

theorem DisplayModeLoop_device (host : Host) (indices : List Nat) :
    ∀ (device : GraphicsDevice) (trace : List Event),
      (DisplayModeLoop host indices (device, trace)).1 =
        (indices.filterMap host.displayMode).foldl AddDisplayMode device := by
  induction indices with
  | nil => intro device trace; rfl
  | cons i rest ih =>
    intro device trace
    cases hq : host.displayMode i with
    | none =>
      simp only [DisplayModeLoop, hq]
      rw [List.filterMap_cons_none hq]
      exact ih device _
    | some size =>
      obtain ⟨modew, modeh⟩ := size
      simp only [DisplayModeLoop, hq]
      rw [ih, ScaleFactorLoop_eq_foldl AddGraphicsMode modew modeh validScaleFactors device,
        List.filterMap_cons_some hq, List.foldl_cons]
      rfl

theorem AddSupportedGraphicsModes_device (host : Host) (device : GraphicsDevice) :
    (AddSupportedGraphicsModes host device).1 =
      (queriedDisplayModes host).foldl AddDisplayMode device := by
  unfold AddSupportedGraphicsModes queriedDisplayModes
  dsimp only
  split
  · rename_i h
    have : host.numDisplayModes.toNat = 0 := by omega
    rw [this]; rfl
  · exact DisplayModeLoop_device host _ device _

theorem foldl_AddDisplayMode_mem (sizes : List (Int × Int)) :
    ∀ (device : GraphicsDevice) (m : GraphicsMode),
      m ∈ (sizes.foldl AddDisplayMode device).validModes ↔
        m ∈ device.validModes ∨
          ∃ size ∈ sizes, m ∈ AddGraphicsModeCalls size.1 size.2 := by
  induction sizes with
  | nil => intro device m; simp
  | cons size rest ih =>
    intro device m
    rw [List.foldl_cons, ih, AddDisplayMode, AddGraphicsModes_mem]
    simp only [List.mem_cons, exists_eq_or_imp]
    tauto

theorem mem_queriedDisplayModes (host : Host) (size : Int × Int) :
    size ∈ queriedDisplayModes host ↔
      ∃ i : Nat, (i : Int) < host.numDisplayModes ∧ host.displayMode i = some size := by
  unfold queriedDisplayModes
  rw [List.mem_filterMap]
  constructor
  · rintro ⟨i, hi, hq⟩
    exact ⟨i, by have := List.mem_range.mp hi; omega, hq⟩
  · rintro ⟨i, hi, hq⟩
    exact ⟨i, List.mem_range.mpr (by omega), hq⟩

theorem mem_AddGraphicsModeCalls (W H : Int) (m : GraphicsMode)
    (hm : m ∈ AddGraphicsModeCalls W H) :
    320 ≤ m.Width ∧ 240 ≤ m.Height ∧ m.ScaleFactor ∈ validScaleFactors ∧
      m.Width * m.ScaleFactor = W ∧ m.Height * m.ScaleFactor = H ∧ W % 4 = 0 := by
  rw [AddGraphicsModeCalls_eq, keptLogicalModes, List.mem_map] at hm
  obtain ⟨s, hs, rfl⟩ := hm
  rw [List.mem_filter] at hs
  obtain ⟨hs1, hs2⟩ := hs
  simp only [keptScaleFactor, decide_eq_true_eq] at hs2
  obtain ⟨hw, hh, h4, h320, h240⟩ := hs2
  exact ⟨h320, h240, hs1, Int.ediv_mul_cancel (Int.dvd_of_emod_eq_zero hw),
    Int.ediv_mul_cancel (Int.dvd_of_emod_eq_zero hh), h4⟩

/-! ## C20: the entries of the populated catalog -/

/-- C20.  After `GraphicsInit` followed by `AddSupportedGraphicsModes`, for
any host display modes, every entry of the catalog has `Width >= 320`,
`Height >= 240` and `ScaleFactor` in 1, 2, 3, 4; and every entry is one of
the four seeded defaults or satisfies
`(Width * ScaleFactor, Height * ScaleFactor) = (W, H)` for a host mode
`(W, H)` with `W` divisible by 4. -/
theorem AddSupportedGraphicsModes_entries (host : Host) (device : GraphicsDevice)
    (c : Config) (m : GraphicsMode)
    (hm : m ∈ (AddSupportedGraphicsModes host (GraphicsInit device c)).1.validModes) :
    320 ≤ m.Width ∧ 240 ≤ m.Height ∧
    (m.ScaleFactor = 1 ∨ m.ScaleFactor = 2 ∨ m.ScaleFactor = 3 ∨ m.ScaleFactor = 4) ∧
    (m ∈ defaultModes ∨
      ∃ (i : Nat) (W H : Int), (i : Int) < host.numDisplayModes ∧
        host.displayMode i = some (W, H) ∧
        m.Width * m.ScaleFactor = W ∧ m.Height * m.ScaleFactor = H ∧ W % 4 = 0) := by
  rw [AddSupportedGraphicsModes_device, foldl_AddDisplayMode_mem,
    GraphicsInit_validModes] at hm
  rcases hm with hm | ⟨size, hsize, hm⟩
  · simp only [List.mem_cons, List.mem_singleton, List.not_mem_nil, or_false] at hm
    rcases hm with rfl | rfl | rfl | rfl <;>
      exact ⟨by decide, by decide, by decide, Or.inl (by decide)⟩
  · obtain ⟨i, hi, hq⟩ := (mem_queriedDisplayModes host size).mp hsize
    obtain ⟨h1, h2, h3, h4, h5, h6⟩ := mem_AddGraphicsModeCalls size.1 size.2 m hm
    refine ⟨h1, h2, ?_, Or.inr ⟨i, size.1, size.2, hi, hq, h4, h5, h6⟩⟩
    simpa [validScaleFactors] using h3

/-- C20 at a concrete input: the entry (320,240,4) that the host mode
1280x960 adds. -/
theorem AddSupportedGraphicsModes_entries_witness :
    (⟨320, 240, 4⟩ : GraphicsMode) ∈
      (AddSupportedGraphicsModes sampleHost
        (GraphicsInit blankDevice sampleConfig)).1.validModes ∧
    (⟨320, 240, 4⟩ : GraphicsMode) ∉ defaultModes ∧
    ((⟨320, 240, 4⟩ : GraphicsMode) ∈ defaultModes ∨
      ∃ (i : Nat) (W H : Int), (i : Int) < sampleHost.numDisplayModes ∧
        sampleHost.displayMode i = some (W, H) ∧
        (320 : Int) * 4 = W ∧ (240 : Int) * 4 = H ∧ W % 4 = 0) :=
  ⟨by decide, by decide,
    (AddSupportedGraphicsModes_entries sampleHost blankDevice sampleConfig ⟨320, 240, 4⟩
      (by decide)).2.2.2⟩

/-! ## C15: display modes that cannot be queried -/

/-- C15.  When the host reports fewer than one display mode,
`AddSupportedGraphicsModes` leaves the device, hence the catalog, unchanged,
so after `GraphicsInit` followed by such a population the catalog holds
exactly the four seeded default modes.  A display mode whose query fails
leaves the device as it is and the loop goes on with the later modes: the
device after `AddSupportedGraphicsModes` is the device after the
`AddGraphicsMode` calls of the modes queried with success, in order. -/
theorem AddSupportedGraphicsModes_query_failure (host : Host) (device : GraphicsDevice)
    (c : Config) :
    (host.numDisplayModes < 1 →
      (AddSupportedGraphicsModes host device).1 = device ∧
      (AddSupportedGraphicsModes host (GraphicsInit device c)).1.validModes =
        [⟨320, 240, 1⟩, ⟨400, 300, 1⟩, ⟨320, 240, 2⟩, ⟨640, 480, 1⟩] ∧
      ∀ m : GraphicsMode,
        m ∈ (AddSupportedGraphicsModes host (GraphicsInit device c)).1.validModes ↔
          m ∈ defaultModes) ∧
    (∀ (i : Nat) (rest : List Nat) (trace : List Event), host.displayMode i = none →
      DisplayModeLoop host (i :: rest) (device, trace) =
        DisplayModeLoop host rest
          (device, trace ++ [Event.SDL_GetDisplayMode i,
            Event.LOG LogLevel.LL_ERROR LogMessage.cannotGetDisplayMode])) ∧
    (AddSupportedGraphicsModes host device).1 =
      (queriedDisplayModes host).foldl AddDisplayMode device := by
  refine ⟨?_, ?_, AddSupportedGraphicsModes_device host device⟩
  · intro hnum
    have hnone : ∀ d : GraphicsDevice, (AddSupportedGraphicsModes host d).1 = d := by
      intro d
      unfold AddSupportedGraphicsModes
      dsimp only
      rw [if_pos hnum]
    refine ⟨hnone device, ?_, ?_⟩
    · rw [hnone, GraphicsInit_validModes]
    · intro m
      rw [hnone, GraphicsInit_validModes]
      simp only [defaultModes, List.mem_cons, List.mem_singleton, List.not_mem_nil,
        or_false]
      tauto
  · intro i rest trace hq
    simp only [DisplayModeLoop, hq]

/-- C15 at concrete inputs: a host without display modes, and a host whose
first query fails and whose second mode is 1280x960. -/
theorem AddSupportedGraphicsModes_query_failure_witness :
    noDisplayHost.numDisplayModes < 1 ∧
    (AddSupportedGraphicsModes noDisplayHost
      (GraphicsInit blankDevice sampleConfig)).1.validModes =
      [⟨320, 240, 1⟩, ⟨400, 300, 1⟩, ⟨320, 240, 2⟩, ⟨640, 480, 1⟩] ∧
    flakyHost.displayMode 0 = none ∧
    queriedDisplayModes flakyHost = [(1280, 960)] ∧
    (AddSupportedGraphicsModes flakyHost blankDevice).1.validModes =
      [⟨640, 480, 2⟩, ⟨320, 240, 4⟩, ⟨1280, 960, 1⟩] :=
  ⟨by decide,
    ((AddSupportedGraphicsModes_query_failure noDisplayHost blankDevice sampleConfig).1
      (by decide)).2.1,
    rfl, by decide, by decide⟩

/-! ## C18: the order by actual resolution -/

/-- C18, the code at failing inputs.  `AddGraphicsMode(320,240,2)` followed by
`AddGraphicsMode(400,300,1)` on an empty catalog leaves (320,240,2), of actual
resolution 307200, before (400,300,1), of actual resolution 120000.  After
`GraphicsInit` and the first `GraphicsInitialize` on a host whose only display
mode is 1280x960, (640,480,2) stands before (320,240,4), both of actual
resolution 1228800.  Neither catalog is sorted ascending by actual resolution
with ties in descending `ScaleFactor` order. -/
theorem AddGraphicsMode_breaks_actual_resolution_order :
    (AddGraphicsModes blankDevice [⟨320, 240, 2⟩, ⟨400, 300, 1⟩]).validModes =
      [⟨320, 240, 2⟩, ⟨400, 300, 1⟩] ∧
    ¬ SortedByActualResolution
      (AddGraphicsModes blankDevice [⟨320, 240, 2⟩, ⟨400, 300, 1⟩]).validModes ∧
    (GraphicsInitialize sampleHost (GraphicsInit blankDevice sampleConfig)
      false).1.validModes =
      [⟨320, 240, 1⟩, ⟨400, 300, 1⟩, ⟨320, 240, 2⟩, ⟨640, 480, 1⟩, ⟨640, 480, 2⟩,
        ⟨320, 240, 4⟩, ⟨1280, 960, 1⟩] ∧
    ¬ SortedByActualResolution
      (GraphicsInitialize sampleHost (GraphicsInit blankDevice sampleConfig)
        false).1.validModes := by
  decide

end Grafx
